import Mathlib

/-!
# vriend-demo-app: the OAuth relying party of `main.go`

A shallow embedding of `main.go` and of the parts of the Go standard library
its three handlers call (`net/url` query encoding and decoding,
`encoding/json` decoding into the `tokenResponse` struct, and the
`net/http` response helpers), followed by the theorems about the handlers.

Go strings are byte sequences: they are modelled as lists of bytes.
-/

namespace Vriend

/-! ## Go strings -/

/-- A Go `byte`. -/
abbrev Byte := Fin 256

/-- A Go `string` (or `[]byte`): an immutable sequence of bytes. -/
abbrev Bytes := List Byte

/-- The bytes of an ASCII string literal. -/
def str (s : String) : Bytes := s.data.map (fun c => Fin.ofNat c.toNat)

/-- Go `strings.Cut(s, sep)` for a one-byte separator: the text before the
first `sep`, the text after it, and whether `sep` was found. -/
def cut (sep : Byte) : Bytes → Bytes × Bytes × Bool
  | [] => ([], [], false)
  | c :: cs =>
    if c = sep then ([], cs, true)
    else
      let r := cut sep cs
      (c :: r.1, r.2.1, r.2.2)

/-- Go `strings.Split(s, sep)` for a one-byte separator. -/
def split (sep : Byte) : Bytes → List Bytes
  | [] => [[]]
  | c :: cs =>
    if c = sep then [] :: split sep cs
    else
      match split sep cs with
      | [] => [[c]]
      | seg :: segs => (c :: seg) :: segs

/-- Lexicographic `<=` on Go strings (the order of `slices.Sorted`). -/
def bytesLE : Bytes → Bytes → Bool
  | [], _ => true
  | _ :: _, [] => false
  | a :: as, b :: bs => if a < b then true else if b < a then false else bytesLE as bs

/-! ## net/url: query escaping -/

namespace url

/-- Go `shouldEscape(c, encodeQueryComponent)`: every byte except the
unreserved ones (alphanumerics and `-`, `_`, `.`, `~`) must be escaped. -/
def shouldEscape (c : Byte) : Bool :=
  if (97 ≤ c ∧ c ≤ 122) ∨ (65 ≤ c ∧ c ≤ 90) ∨ (48 ≤ c ∧ c ≤ 57) then false
  else if c = 45 ∨ c = 95 ∨ c = 46 ∨ c = 126 then false
  else true

/-- The digit of `upperhex = "0123456789ABCDEF"` at index `n`. -/
def upperhex (n : Nat) : Byte :=
  if n < 10 then Fin.ofNat (48 + n) else Fin.ofNat (55 + n)

/-- Go `QueryEscape`: a space becomes `+`, a byte that must be escaped
becomes `%XX`, every other byte stands for itself. -/
def QueryEscape : Bytes → Bytes
  | [] => []
  | c :: cs =>
    if c = 32 then 43 :: QueryEscape cs
    else if shouldEscape c then
      37 :: upperhex (c.val / 16) :: upperhex (c.val % 16) :: QueryEscape cs
    else c :: QueryEscape cs

/-- The bytes a query-escaped text is made of: the unreserved bytes, the
`%` of an escape and the `+` that stands for a space. -/
def escaped (c : Byte) : Bool := !shouldEscape c || c = 37 || c = 43

/-- Go `ishex`. -/
def ishex (c : Byte) : Bool :=
  (48 ≤ c ∧ c ≤ 57) ∨ (97 ≤ c ∧ c ≤ 102) ∨ (65 ≤ c ∧ c ≤ 70)

/-- Go `unhex`. -/
def unhex (c : Byte) : Nat :=
  if 48 ≤ c ∧ c ≤ 57 then c.val - 48
  else if 97 ≤ c ∧ c ≤ 102 then c.val - 97 + 10
  else if 65 ≤ c ∧ c ≤ 70 then c.val - 65 + 10
  else 0

/-- Go `QueryUnescape`: `%XX` becomes the byte `XX`, `+` becomes a space;
a `%` not followed by two hex digits is an error (`none`). -/
def QueryUnescape : Bytes → Option Bytes
  | [] => some []
  | c :: cs =>
    if c = 37 then
      match cs with
      | h1 :: h2 :: rest =>
        if ishex h1 ∧ ishex h2 then
          (QueryUnescape rest).map (fun t => Fin.ofNat (unhex h1 * 16 + unhex h2) :: t)
        else none
      | _ => none
    else if c = 43 then (QueryUnescape cs).map (fun t => 32 :: t)
    else (QueryUnescape cs).map (fun t => c :: t)

/-- Go `url.Values`: a map from key to the list of its values, kept as an
association list with one entry per key. -/
abbrev Values := List (Bytes × List Bytes)

/-- Go `Values.Get`: the first value of the key, or `""`. -/
def Values.Get (v : Values) (key : Bytes) : Bytes :=
  match v.lookup key with
  | some (x :: _) => x
  | _ => []

/-- Go `Values.Set`: the key now has exactly the one value. -/
def Values.Set : Values → Bytes → Bytes → Values
  | [], key, value => [(key, [value])]
  | (k, vs) :: rest, key, value =>
    if k = key then (k, [value]) :: rest else (k, vs) :: Values.Set rest key value

/-- Go `Values.Add` (`m[key] = append(m[key], value)`). -/
def Values.Add : Values → Bytes → Bytes → Values
  | [], key, value => [(key, [value])]
  | (k, vs) :: rest, key, value =>
    if k = key then (k, vs ++ [value]) :: rest else (k, vs) :: Values.Add rest key value

/-- Insertion of a key into a sorted list of keys. -/
def insertKey (k : Bytes) : List Bytes → List Bytes
  | [] => [k]
  | x :: xs => if bytesLE k x then k :: x :: xs else x :: insertKey k xs

/-- Go `slices.Sorted(maps.Keys(v))`. -/
def sortedKeys (v : Values) : List Bytes :=
  (v.map Prod.fst).foldr insertKey []

/-- The inner loop of `Values.Encode`: append `key=value` for each value
of one key, with `&` in front unless the buffer is still empty. -/
def encodeKey (keyEscaped : Bytes) : Bytes → List Bytes → Bytes
  | buf, [] => buf
  | buf, v :: vs =>
    let buf1 := match buf with
      | [] => buf
      | _ :: _ => buf ++ [38]
    encodeKey keyEscaped (buf1 ++ keyEscaped ++ [61] ++ QueryEscape v) vs

/-- Go `Values.Encode`: the keys in sorted order, each value written as
`QueryEscape(key)=QueryEscape(value)`, joined by `&`. -/
def Values.Encode (v : Values) : Bytes :=
  (sortedKeys v).foldl
    (fun buf k => encodeKey (QueryEscape k) buf ((v.lookup k).getD [])) []

/-- The text `k1=v1&k2=v2&...` of a list of pairs, keys and values
query-escaped: what `Values.Encode` writes for single-valued keys taken in
this order. -/
def encodePairs : List (Bytes × Bytes) → Bytes
  | [] => []
  | [kv] => QueryEscape kv.1 ++ 61 :: QueryEscape kv.2
  | kv :: rest => QueryEscape kv.1 ++ 61 :: QueryEscape kv.2 ++ 38 :: encodePairs rest

/-- One round of the loop of Go `parseQuery`, for the segment `seg` between
two `&`: the pair is added to the map, or skipped (with an error) when it
holds a `;` or a bad escape, or skipped silently when empty. -/
def parseSegment (acc : Values × Bool) (seg : Bytes) : Values × Bool :=
  if (59 : Byte) ∈ seg then (acc.1, true)
  else if seg = [] then acc
  else
    let kv := cut 61 seg
    match QueryUnescape kv.1 with
    | none => (acc.1, true)
    | some key =>
      match QueryUnescape kv.2.1 with
      | none => (acc.1, true)
      | some value => (acc.1.Add key value, acc.2)

/-- Go `url.ParseQuery`: the values parsed and whether an error was met
(Go returns the first error; the map holds every pair that parsed). The
loop `for query != "" { key, query, _ = strings.Cut(query, "&"); ... }`
visits the segments between `&` from left to right. -/
def ParseQuery (query : Bytes) : Values × Bool :=
  (split 38 query).foldl parseSegment ([], false)

/-- The `RawQuery` of a URL as `url.Parse` finds it: the fragment after the
first `#` is dropped, the query is what follows the first `?`. -/
def RawQuery (u : Bytes) : Bytes :=
  (cut 63 (cut 35 u).1).2.1

end url

/-! ## encoding/json: decoding into `tokenResponse` -/

namespace json

/-- A parsed JSON value; a number keeps its literal text. -/
inductive Value where
  | null : Value
  | bool : Bool → Value
  | number : Bytes → Value
  | string : Bytes → Value
  | array : List Value → Value
  | object : List (Bytes × Value) → Value

/-- Go `isSpace`: space, tab, carriage return, line feed. -/
def isSpace (c : Byte) : Bool := c = 32 ∨ c = 9 ∨ c = 13 ∨ c = 10

/-- Drop leading JSON white space. -/
def skipSpace : Bytes → Bytes
  | [] => []
  | c :: cs => if isSpace c then skipSpace cs else c :: cs

/-- The value of a hex digit, as in Go `getu4`. -/
def hexVal (c : Byte) : Option Nat :=
  if 48 ≤ c ∧ c ≤ 57 then some (c.val - 48)
  else if 97 ≤ c ∧ c ≤ 102 then some (c.val - 97 + 10)
  else if 65 ≤ c ∧ c ≤ 70 then some (c.val - 65 + 10)
  else none

/-- Go `getu4`: the code unit of a leading `\uXXXX`, with the rest. -/
def getu4 : Bytes → Option (Nat × Bytes)
  | 92 :: 117 :: a :: b :: c :: d :: rest =>
    match hexVal a, hexVal b, hexVal c, hexVal d with
    | some x, some y, some z, some w => some (((x * 16 + y) * 16 + z) * 16 + w, rest)
    | _, _, _, _ => none
  | _ => none

/-- The UTF-8 encoding of U+FFFD, the replacement character. -/
def replacementChar : Bytes := [239, 191, 189]

/-- Go `utf8.EncodeRune`. -/
def encodeRune (r : Nat) : Bytes :=
  if r < 128 then [Fin.ofNat r]
  else if r < 2048 then [Fin.ofNat (192 + r / 64), Fin.ofNat (128 + r % 64)]
  else if (55296 ≤ r ∧ r < 57344) ∨ 1114111 < r then replacementChar
  else if r < 65536 then
    [Fin.ofNat (224 + r / 4096), Fin.ofNat (128 + r / 64 % 64), Fin.ofNat (128 + r % 64)]
  else
    [Fin.ofNat (240 + r / 262144), Fin.ofNat (128 + r / 4096 % 64),
     Fin.ofNat (128 + r / 64 % 64), Fin.ofNat (128 + r % 64)]

/-- Is `c` a UTF-8 continuation byte in the range `lo..hi`? -/
def inRange (lo hi c : Byte) : Bool := lo ≤ c ∧ c ≤ hi

/-- The length of the well-formed UTF-8 sequence that starts the input, as
Go `utf8.DecodeRune` accepts it, or `0` when the first byte starts none. -/
def utf8Len : Bytes → Nat
  | [] => 0
  | c0 :: rest =>
    if c0 < 128 then 1
    else if inRange 194 223 c0 then
      match rest with
      | c1 :: _ => if inRange 128 191 c1 then 2 else 0
      | _ => 0
    else if inRange 224 239 c0 then
      match rest with
      | c1 :: c2 :: _ =>
        let lo : Byte := if c0 = 224 then 160 else 128
        let hi : Byte := if c0 = 237 then 159 else 191
        if inRange lo hi c1 ∧ inRange 128 191 c2 then 3 else 0
      | _ => 0
    else if inRange 240 244 c0 then
      match rest with
      | c1 :: c2 :: c3 :: _ =>
        let lo : Byte := if c0 = 240 then 144 else 128
        let hi : Byte := if c0 = 244 then 143 else 191
        if inRange lo hi c1 ∧ inRange 128 191 c2 ∧ inRange 128 191 c3 then 4 else 0
      | _ => 0
    else 0

/-- The text of a string literal after its opening quote, unquoted as Go
`unquote` does: escapes are resolved, `\u` surrogate pairs are combined, an
unpaired surrogate or an ill-formed UTF-8 byte becomes U+FFFD. Returns the
text and what follows the closing quote; `none` for a control character, a
bad escape or a missing closing quote. The fuel bounds the bytes read. -/
def stringBody : Nat → Bytes → Option (Bytes × Bytes)
  | 0, _ => none
  | _ + 1, [] => none
  | n + 1, c :: cs =>
    if c = 34 then some ([], cs)
    else if c = 92 then
      match cs with
      | [] => none
      | e :: rest =>
        let simple (b : Byte) := (stringBody n rest).map (fun r => (b :: r.1, r.2))
        if e = 34 ∨ e = 92 ∨ e = 47 then simple e
        else if e = 98 then simple 8
        else if e = 102 then simple 12
        else if e = 110 then simple 10
        else if e = 114 then simple 13
        else if e = 116 then simple 9
        else if e = 117 then
          match getu4 (c :: cs) with
          | none => none
          | some (rr, rest1) =>
            if 55296 ≤ rr ∧ rr < 57344 then
              match getu4 rest1 with
              | some (rr1, rest2) =>
                if rr < 56320 ∧ 56320 ≤ rr1 ∧ rr1 < 57344 then
                  (stringBody n rest2).map (fun r =>
                    (encodeRune ((rr - 55296) * 1024 + (rr1 - 56320) + 65536) ++ r.1, r.2))
                else (stringBody n rest1).map (fun r => (replacementChar ++ r.1, r.2))
              | none => (stringBody n rest1).map (fun r => (replacementChar ++ r.1, r.2))
            else (stringBody n rest1).map (fun r => (encodeRune rr ++ r.1, r.2))
        else none
    else if c < 32 then none
    else if c < 128 then (stringBody n cs).map (fun r => (c :: r.1, r.2))
    else
      match utf8Len (c :: cs) with
      | 0 => (stringBody n cs).map (fun r => (replacementChar ++ r.1, r.2))
      | k + 1 => (stringBody n (cs.drop k)).map (fun r => (c :: cs.take k ++ r.1, r.2))

/-- A string literal: the input starts right after the opening quote. -/
def parseString (s : Bytes) : Option (Bytes × Bytes) := stringBody (s.length + 1) s

/-- Is `c` an ASCII digit? -/
def isDigit (c : Byte) : Bool := 48 ≤ c ∧ c ≤ 57

/-- The leading digits of the input and the rest. -/
def digits : Bytes → Bytes × Bytes
  | [] => ([], [])
  | c :: cs =>
    if isDigit c then
      let r := digits cs
      (c :: r.1, r.2)
    else ([], c :: cs)

/-- The exponent part of a number, if one starts here (`none`: a bad one). -/
def parseExp (s : Bytes) : Option (Bytes × Bytes) :=
  match s with
  | e :: rest =>
    if e = 101 ∨ e = 69 then
      let signed : Bytes × Bytes := match rest with
        | sg :: rest1 => if sg = 43 ∨ sg = 45 then ([sg], rest1) else ([], rest)
        | [] => ([], rest)
      let ds := digits signed.2
      if ds.1 = [] then none else some (e :: signed.1 ++ ds.1, ds.2)
    else some ([], s)
  | [] => some ([], s)

/-- The fraction and exponent of a number, if they start here. -/
def parseFracExp (s : Bytes) : Option (Bytes × Bytes) :=
  match s with
  | 46 :: rest =>
    let ds := digits rest
    if ds.1 = [] then none
    else (parseExp ds.2).map (fun r => (46 :: ds.1 ++ r.1, r.2))
  | _ => parseExp s

/-- The integer part of a number without its sign: `0`, or a digit from
`1` to `9` followed by digits. -/
def parseInt (s : Bytes) : Option (Bytes × Bytes) :=
  match s with
  | c :: cs =>
    if c = 48 then some ([c], cs)
    else if isDigit c then
      let ds := digits cs
      some (c :: ds.1, ds.2)
    else none
  | [] => none

/-- A JSON number literal at the head of the input, and the rest. -/
def parseNumber (s : Bytes) : Option (Bytes × Bytes) :=
  let sign : Bytes × Bytes := match s with
    | 45 :: rest => ([45], rest)
    | _ => ([], s)
  match parseInt sign.2 with
  | none => none
  | some (ip, rest) => (parseFracExp rest).map (fun r => (sign.1 ++ ip ++ r.1, r.2))

/-- Go `maxNestingDepth`. -/
def maxNestingDepth : Nat := 10000

mutual
/-- A JSON value at the head of the input (leading space allowed), and
the rest. `depth` counts the arrays and objects that are open. -/
def parseValue : Nat → Nat → Bytes → Option (Value × Bytes)
  | 0, _, _ => none
  | n + 1, depth, s =>
    match skipSpace s with
    | [] => none
    | c :: cs =>
      if c = 123 then
        if maxNestingDepth ≤ depth then none
        else
          match skipSpace cs with
          | 125 :: rest => some (Value.object [], rest)
          | _ => (parseMembers n (depth + 1) cs).map (fun r => (Value.object r.1, r.2))
      else if c = 91 then
        if maxNestingDepth ≤ depth then none
        else
          match skipSpace cs with
          | 93 :: rest => some (Value.array [], rest)
          | _ => (parseElements n (depth + 1) cs).map (fun r => (Value.array r.1, r.2))
      else if c = 34 then (parseString cs).map (fun r => (Value.string r.1, r.2))
      else if c = 45 ∨ isDigit c then
        (parseNumber (c :: cs)).map (fun r => (Value.number r.1, r.2))
      else
        match c :: cs with
        | 116 :: 114 :: 117 :: 101 :: rest => some (Value.bool true, rest)
        | 102 :: 97 :: 108 :: 115 :: 101 :: rest => some (Value.bool false, rest)
        | 110 :: 117 :: 108 :: 108 :: rest => some (Value.null, rest)
        | _ => none
/-- The elements of a non-empty array up to its closing bracket. -/
def parseElements : Nat → Nat → Bytes → Option (List Value × Bytes)
  | 0, _, _ => none
  | n + 1, depth, s =>
    match parseValue n depth s with
    | none => none
    | some (v, rest) =>
      match skipSpace rest with
      | 44 :: rest1 => (parseElements n depth rest1).map (fun r => (v :: r.1, r.2))
      | 93 :: rest1 => some ([v], rest1)
      | _ => none
/-- The members of a non-empty object up to its closing brace. -/
def parseMembers : Nat → Nat → Bytes → Option (List (Bytes × Value) × Bytes)
  | 0, _, _ => none
  | n + 1, depth, s =>
    match skipSpace s with
    | 34 :: s1 =>
      match parseString s1 with
      | none => none
      | some (key, s2) =>
        match skipSpace s2 with
        | 58 :: s3 =>
          match parseValue n depth s3 with
          | none => none
          | some (v, rest) =>
            match skipSpace rest with
            | 44 :: rest1 => (parseMembers n depth rest1).map (fun r => ((key, v) :: r.1, r.2))
            | 125 :: rest1 => some ([(key, v)], rest1)
            | _ => none
        | _ => none
    | _ => none
end

/-- Go `checkValid` followed by the scan of the one top-level value: the
whole input is one JSON value with only white space around it. Every step
of the parser reads at least one byte for two units of fuel. -/
def parse (data : Bytes) : Option Value :=
  match parseValue (2 * data.length + 2) 0 data with
  | some (v, rest) => if skipSpace rest = [] then some v else none
  | none => none

/-- The struct `tokenResponse` declared inside `handleOAuthCallback`. -/
structure tokenResponse where
  AccessToken : Bytes
  TokenType : Bytes
  ExpiresIn : Int
  Scope : Bytes
  RefreshToken : Bytes
  deriving DecidableEq, Repr

/-- The zero value of `tokenResponse` (`var tr tokenResponse`). -/
def tokenResponse.zero : tokenResponse := ⟨[], [], 0, [], []⟩

/-- The fields of `tokenResponse`. -/
inductive Field where
  | AccessToken | TokenType | ExpiresIn | Scope | RefreshToken
  deriving DecidableEq, Repr

/-- The JSON names of the struct tags. -/
def fieldNames : List (Bytes × Field) :=
  [(str "access_token", Field.AccessToken), (str "token_type", Field.TokenType),
   (str "expires_in", Field.ExpiresIn), (str "scope", Field.Scope),
   (str "refresh_token", Field.RefreshToken)]

/-- Go `foldName`, as far as it can reach an ASCII name: ASCII letters are
upper-cased, and the two non-ASCII runes whose case folding is an ASCII
letter (U+017F, long s, and U+212A, the Kelvin sign) become `S` and `K`;
every other non-ASCII rune folds to a non-ASCII rune and is kept. -/
def foldName : Bytes → Bytes
  | [] => []
  | 197 :: 191 :: rest => 83 :: foldName rest
  | 226 :: 132 :: 170 :: rest => 75 :: foldName rest
  | c :: rest => (if 97 ≤ c ∧ c ≤ 122 then c - 32 else c) :: foldName rest

/-- The field a JSON object key addresses: the field with exactly that
name, else the field whose folded name is the folded key. -/
def findField (key : Bytes) : Option Field :=
  match fieldNames.lookup key with
  | some f => some f
  | none => (fieldNames.map (fun p => (foldName p.1, p.2))).lookup (foldName key)

/-- Go `strconv.ParseInt(lit, 10, 64)` on a JSON number literal: digits
with an optional minus sign, within the range of `int64`. -/
def parseInt64 (lit : Bytes) : Option Int :=
  let neg : Bool := lit.head? = some 45
  let ds := if neg then lit.tail else lit
  if ds ≠ [] ∧ ds.all isDigit then
    let n : Nat := ds.foldl (fun a d => a * 10 + (d.val - 48)) 0
    let v : Int := if neg then - (n : Int) else (n : Int)
    if -9223372036854775808 ≤ v ∧ v ≤ 9223372036854775807 then some v else none
  else none

/-- Storing a JSON value into a `string` field: a string is stored, `null`
leaves the field alone, anything else is an `UnmarshalTypeError` (`true`). -/
def storeString (cur : Bytes) : Value → Bytes × Bool
  | Value.string s => (s, false)
  | Value.null => (cur, false)
  | _ => (cur, true)

/-- Storing a JSON value into an `int` field. -/
def storeInt (cur : Int) : Value → Int × Bool
  | Value.number lit =>
    match parseInt64 lit with
    | some n => (n, false)
    | none => (cur, true)
  | Value.null => (cur, false)
  | _ => (cur, true)

/-- One member of the JSON object decoded into the struct: an unknown key
is skipped, a type error is recorded and decoding goes on. -/
def decodeMember (acc : tokenResponse × Bool) (m : Bytes × Value) : tokenResponse × Bool :=
  let tr := acc.1
  match findField m.1 with
  | none => acc
  | some Field.AccessToken =>
    let r := storeString tr.AccessToken m.2
    ({ tr with AccessToken := r.1 }, acc.2 || r.2)
  | some Field.TokenType =>
    let r := storeString tr.TokenType m.2
    ({ tr with TokenType := r.1 }, acc.2 || r.2)
  | some Field.ExpiresIn =>
    let r := storeInt tr.ExpiresIn m.2
    ({ tr with ExpiresIn := r.1 }, acc.2 || r.2)
  | some Field.Scope =>
    let r := storeString tr.Scope m.2
    ({ tr with Scope := r.1 }, acc.2 || r.2)
  | some Field.RefreshToken =>
    let r := storeString tr.RefreshToken m.2
    ({ tr with RefreshToken := r.1 }, acc.2 || r.2)

/-- The errors of `json.Unmarshal`. -/
inductive UnmarshalError where
  | SyntaxError
  | UnmarshalTypeError
  deriving DecidableEq, Repr

/-- Go `json.Unmarshal(data, &tr)`: the struct afterwards and the error.
Invalid JSON is a syntax error and leaves the struct alone; an object is
decoded member by member; `null` is accepted and changes nothing; any other
top-level value is a type error. -/
def Unmarshal (data : Bytes) (tr : tokenResponse) : tokenResponse × Option UnmarshalError :=
  match parse data with
  | none => (tr, some UnmarshalError.SyntaxError)
  | some (Value.object ms) =>
    let r := ms.foldl decodeMember (tr, false)
    (r.1, if r.2 then some UnmarshalError.UnmarshalTypeError else none)
  | some Value.null => (tr, none)
  | some _ => (tr, some UnmarshalError.UnmarshalTypeError)

end json

/-! ## time -/

/-- A Go `time.Time`: an instant, as nanoseconds since the Unix epoch
(negative before it). -/
abbrev Time := Int

/-- Go `time.Second`, a `Duration` in nanoseconds. -/
def time.Second : Int := 1000000000

/-- Go `Time.Add`. -/
def Time.Add (t : Time) (d : Int) : Time := t + d

namespace time

/-- Go `Time.Unix`: the whole seconds since the epoch, rounded down. -/
def Unix (t : Time) : Int := t / 1000000000

/-- The year, the month (1 to 12) and the day of the month of the day that
lies `days` days after 1 January 1970 in the proleptic Gregorian calendar,
as `Time.Date` gives them in UTC. -/
def civil (days : Int) : Int × Int × Int :=
  let z := days + 719468
  let era := z / 146097
  let doe := z - era * 146097
  let yoe := (doe - doe / 1460 + doe / 36524 - doe / 146096) / 365
  let doy := doe - (365 * yoe + yoe / 4 - yoe / 100)
  let mp := (5 * doy + 2) / 153
  let d := doy - (153 * mp + 2) / 5 + 1
  let m := if mp < 10 then mp + 3 else mp - 9
  let y := yoe + era * 400 + (if m ≤ 2 then 1 else 0)
  (y, m, d)

/-- Go `Time.Year` in UTC. -/
def Year (t : Time) : Int := (civil (Unix t / 86400)).1

/-- The day names of Go `time`, Sunday first. -/
def shortDayNames : List Bytes :=
  [str "Sun", str "Mon", str "Tue", str "Wed", str "Thu", str "Fri", str "Sat"]

/-- The month names of Go `time`. -/
def shortMonthNames : List Bytes :=
  [str "Jan", str "Feb", str "Mar", str "Apr", str "May", str "Jun",
   str "Jul", str "Aug", str "Sep", str "Oct", str "Nov", str "Dec"]

/-- The decimal digits of `n`, with zeros in front up to `width` digits. -/
def appendInt (n : Nat) (width : Nat) : Bytes :=
  let ds : Bytes := (Nat.toDigits 10 n).map (fun c => Fin.ofNat c.toNat)
  List.replicate (width - ds.length) 48 ++ ds

/-- Go `t.UTC().Format(http.TimeFormat)`, the layout
`Mon, 02 Jan 2006 15:04:05 GMT`: the instant in whole seconds. -/
def formatHTTP (t : Time) : Bytes :=
  let sec := Unix t
  let days := sec / 86400
  let rem := sec % 86400
  let ymd := civil days
  shortDayNames.getD ((days + 4) % 7).toNat [] ++ str ", " ++
    appendInt ymd.2.2.toNat 2 ++ str " " ++
    shortMonthNames.getD (ymd.2.1 - 1).toNat [] ++ str " " ++
    appendInt ymd.1.toNat 4 ++ str " " ++
    appendInt (rem / 3600).toNat 2 ++ str ":" ++
    appendInt (rem % 3600 / 60).toNat 2 ++ str ":" ++
    appendInt (rem % 60).toNat 2 ++ str " GMT"

end time

/-! ## net/http: the response side -/

namespace http

def StatusOK : Nat := 200
def StatusSeeOther : Nat := 303
def StatusBadRequest : Nat := 400
def StatusInternalServerError : Nat := 500

/-- Go `http.SameSite`. -/
inductive SameSite where
  | SameSiteDefaultMode | SameSiteLaxMode | SameSiteStrictMode | SameSiteNoneMode
  deriving DecidableEq, Repr

/-- Go `http.Cookie`, with the fields that `main.go` sets; the other
fields of the Go struct stay at their zero value and add nothing to the
`Set-Cookie` line. `Expires = none` is the zero `time.Time`. -/
structure Cookie where
  Name : Bytes
  Value : Bytes
  Path : Bytes := []
  Expires : Option Time := none
  Secure : Bool := false
  HttpOnly : Bool := false
  SameSite : SameSite := SameSite.SameSiteDefaultMode
  deriving DecidableEq, Repr

/-- Go `http.Header`, a map from header name to its values. -/
abbrev Header := List (Bytes × List Bytes)

/-- Go `Header.Set`. -/
def Header.Set (h : Header) (key value : Bytes) : Header := url.Values.Set h key value

/-- Go `Header.Del`. -/
def Header.Del (h : Header) (key : Bytes) : Header := h.filter (fun p => p.1 ≠ key)

/-- Go `Header.Get`. -/
def Header.Get (h : Header) (key : Bytes) : Bytes := url.Values.Get h key

/-- An incoming request, as far as the handlers can look at it: the method,
`r.URL.RawQuery`, the request headers (cookies among them) and whether
`r.TLS != nil`. -/
structure Request where
  Method : Bytes
  RawQuery : Bytes
  Header : Header := []
  TLS : Bool := false

/-- Go `r.URL.Query()`: `ParseQuery` with the error dropped. -/
def Request.Query (r : Request) : url.Values := (url.ParseQuery r.RawQuery).1

/-- The `ResponseWriter` of the server, as a record of what the handler
has made it send: the header map, the lines of the `Set-Cookie` header
(which only `SetCookie` adds to), the informational 1xx status lines sent
ahead of the response, the status code once `WriteHeader` has fixed it, and
the body bytes that `Write` accepted. `panicked` is set when a call
panicked: the handler stops there, the server drops the connection and
nothing of the record is sent. -/
structure ResponseWriter where
  header : Header := []
  cookies : List Bytes := []
  informational : List Nat := []
  status : Option Nat := none
  body : Bytes := []
  panicked : Bool := false
  deriving DecidableEq, Repr

/-- The writer a handler is started with. -/
def NewRecorder : ResponseWriter := {}

/-- Go `httpguts.IsTokenRune`: the bytes allowed in a cookie name. -/
def isToken (c : Byte) : Bool :=
  (97 ≤ c ∧ c ≤ 122) ∨ (65 ≤ c ∧ c ≤ 90) ∨ (48 ≤ c ∧ c ≤ 57) ∨
  c ∈ ([33, 35, 36, 37, 38, 39, 42, 43, 45, 46, 94, 95, 96, 124, 126] : List Byte)

/-- Go `isCookieNameValid`. -/
def isCookieNameValid (raw : Bytes) : Bool := raw ≠ [] ∧ raw.all isToken

/-- Go `validCookieValueByte`: printable ASCII other than `"`, `;` and `\`. -/
def validCookieValueByte (b : Byte) : Bool := 32 ≤ b ∧ b < 127 ∧ b ≠ 34 ∧ b ≠ 59 ∧ b ≠ 92

/-- Go `validCookiePathByte`: printable ASCII other than `;`. -/
def validCookiePathByte (b : Byte) : Bool := 32 ≤ b ∧ b < 127 ∧ b ≠ 59

/-- Go `sanitizeCookieValue`: the invalid bytes are dropped, and what is
left is put in double quotes when it holds a space or a comma. -/
def sanitizeCookieValue (v : Bytes) : Bytes :=
  let v1 := v.filter validCookieValueByte
  if (32 : Byte) ∈ v1 ∨ (44 : Byte) ∈ v1 then [34] ++ v1 ++ [34] else v1

/-- Go `sanitizeCookiePath`: the invalid bytes are dropped. -/
def sanitizeCookiePath (v : Bytes) : Bytes := v.filter validCookiePathByte

/-- Go `validCookieExpires`: browsers cannot take a year before 1601. -/
def validCookieExpires (t : Time) : Bool := 1601 ≤ time.Year t

/-- Go `Cookie.String`: the `Set-Cookie` line of a cookie, empty when the
name is not valid. The value and the path are sanitised and `Expires` is
written in whole seconds. -/
def Cookie.String (c : Cookie) : Bytes :=
  if !isCookieNameValid c.Name then []
  else
    c.Name ++ str "=" ++ sanitizeCookieValue c.Value ++
    (if c.Path ≠ [] then str "; Path=" ++ sanitizeCookiePath c.Path else []) ++
    (match c.Expires with
      | some t => if validCookieExpires t then str "; Expires=" ++ time.formatHTTP t else []
      | none => []) ++
    (if c.HttpOnly then str "; HttpOnly" else []) ++
    (if c.Secure then str "; Secure" else []) ++
    (match c.SameSite with
      | SameSite.SameSiteDefaultMode => []
      | SameSite.SameSiteNoneMode => str "; SameSite=None"
      | SameSite.SameSiteLaxMode => str "; SameSite=Lax"
      | SameSite.SameSiteStrictMode => str "; SameSite=Strict")

/-- Go `http.SetCookie`: `if v := cookie.String(); v != ""` the line is
added to the `Set-Cookie` header. -/
def SetCookie (w : ResponseWriter) (c : Cookie) : ResponseWriter :=
  if c.String ≠ [] then { w with cookies := w.cookies ++ [c.String] } else w

/-- Go `bodyAllowedForStatus`: 1xx, 204 and 304 responses carry no body. -/
def bodyAllowedForStatus (status : Nat) : Bool :=
  if 100 ≤ status ∧ status ≤ 199 then false
  else if status = 204 then false
  else if status = 304 then false
  else true

/-- Go `ResponseWriter.WriteHeader` of the server: a call after the status
is fixed does nothing; `checkWriteHeaderCode` panics for a code below 100
or above 999; a 1xx code other than 101 sends an informational status line
and leaves the status open; any other code fixes the status. -/
def ResponseWriter.WriteHeader (w : ResponseWriter) (code : Nat) : ResponseWriter :=
  if w.panicked then w
  else
    match w.status with
    | some _ => w
    | none =>
      if code < 100 ∨ 999 < code then { w with panicked := true }
      else if 100 ≤ code ∧ code ≤ 199 ∧ code ≠ 101 then
        { w with informational := w.informational ++ [code] }
      else { w with status := some code }

/-- Go `ResponseWriter.Write` of the server: an implicit `WriteHeader(200)`
if the status is open; the bytes are refused (`ErrBodyNotAllowed`) when the
status allows no body. -/
def ResponseWriter.Write (w : ResponseWriter) (b : Bytes) : ResponseWriter :=
  if w.panicked then w
  else
    let w1 := w.WriteHeader StatusOK
    match w1.status with
    | some status =>
      if bodyAllowedForStatus status then { w1 with body := w1.body ++ b } else w1
    | none => w1

/-- Go `http.Error`: plain-text headers, the status, then the message and
a newline. The `Set-Cookie` lines already in the header stay. -/
def Error (w : ResponseWriter) (error : Bytes) (code : Nat) : ResponseWriter :=
  let h := w.header.Del (str "Content-Length")
  let h := h.Set (str "Content-Type") (str "text/plain; charset=utf-8")
  let h := h.Set (str "X-Content-Type-Options") (str "nosniff")
  let w1 := ResponseWriter.WriteHeader { w with header := h } code
  w1.Write (error ++ [10])

/-- Go `http.StatusText`, for the codes the handlers use. -/
def StatusText (code : Nat) : Bytes :=
  if code = 303 then str "See Other"
  else if code = 400 then str "Bad Request"
  else if code = 500 then str "Internal Server Error"
  else []

/-- Go `http.Redirect` for a target that is a clean rooted path of plain
ASCII, such as `/` (for these the path cleaning and the escaping of the
target are the identity): the `Location` header, a `Content-Type` for `GET`
and `HEAD` if none was set, the status, and for `GET` a short HTML body. -/
def Redirect (w : ResponseWriter) (r : Request) (target : Bytes) (code : Nat) :
    ResponseWriter :=
  let hadCT := (w.header.lookup (str "Content-Type")).isSome
  let h := w.header.Set (str "Location") target
  let h := if !hadCT ∧ (r.Method = str "GET" ∨ r.Method = str "HEAD")
    then h.Set (str "Content-Type") (str "text/html; charset=utf-8") else h
  let w1 := ResponseWriter.WriteHeader { w with header := h } code
  if !hadCT ∧ r.Method = str "GET" then
    w1.Write (str "<a href=\"" ++ target ++ str "\">" ++ StatusText code ++ str "</a>.\n" ++ [10])
  else w1

/-- The response of the token endpoint as `handleOAuthCallback` reads it:
`resp.StatusCode` and the bytes `io.ReadAll(resp.Body)` returned. -/
structure Response where
  StatusCode : Nat
  Body : Bytes
  deriving DecidableEq, Repr

/-- One call of `http.Post(url, contentType, body)`. -/
structure PostCall where
  url : Bytes
  contentType : Bytes
  body : Bytes
  deriving DecidableEq, Repr

/-- The network as `http.Post` sees it: a call yields a response, or fails
with the text of the transport error (`err.Error()`). -/
abbrev Transport := PostCall → Except Bytes Response

end http

/-! ## main.go -/

/-- The package variables that `init` loads from the environment. -/
structure Config where
  clientID : Bytes
  clientSecret : Bytes
  redirectURL : Bytes
  authTokenURL : Bytes
  vriendAPIURL : Bytes

/-- The package variable `cookieName`. -/
def cookieName : Bytes := str "access_token"

/-- What a run of `handleOAuthCallback` did: the response it wrote and the
calls of `http.Post` it made, in order. -/
structure Outcome where
  w : http.ResponseWriter
  posts : List http.PostCall

/-- The form `data` that `handleOAuthCallback` fills with five `Set`s. -/
def tokenRequestData (cfg : Config) (code : Bytes) : url.Values :=
  let data : url.Values := []
  let data := data.Set (str "client_id") cfg.clientID
  let data := data.Set (str "client_secret") cfg.clientSecret
  let data := data.Set (str "grant_type") (str "authorization_code")
  let data := data.Set (str "code") code
  data.Set (str "redirect_uri") cfg.redirectURL

/-- The arguments of the `http.Post` call of `handleOAuthCallback`. -/
def tokenExchangeCall (cfg : Config) (code : Bytes) : http.PostCall :=
  { url := cfg.authTokenURL
    contentType := str "application/x-www-form-urlencoded"
    body := (tokenRequestData cfg code).Encode }

/-- The handler `handleOAuthCallback`. -/
def handleOAuthCallback (cfg : Config) (post : http.Transport)
    (w : http.ResponseWriter) (r : http.Request) : Outcome :=
  let code := r.Query.Get (str "code")
  if code = [] then
    ⟨http.Error w (str "Missing code") http.StatusBadRequest, []⟩
  else
    let call := tokenExchangeCall cfg code
    match post call with
    | Except.error err =>
      ⟨http.Error w (str "Token exchange failed: " ++ err) http.StatusInternalServerError,
        [call]⟩
    | Except.ok resp =>
      let body := resp.Body
      let w1 :=
        if resp.StatusCode = http.StatusOK then
          let res := json.Unmarshal body json.tokenResponse.zero
          if res.2 = none ∧ res.1.AccessToken ≠ [] then
            http.SetCookie w
              { Name := cookieName
                Value := res.1.AccessToken
                Path := str "/"
                HttpOnly := true
                Secure := r.TLS
                SameSite := http.SameSite.SameSiteLaxMode }
          else w
        else w
      if resp.StatusCode ≠ http.StatusOK then
        ⟨http.Error w1 (str "Token exchange failed: " ++ body) resp.StatusCode, [call]⟩
      else
        ⟨http.Redirect w1 r (str "/") http.StatusSeeOther, [call]⟩

/-- The handler `handleLogout`; `now` is the reading of the wall clock by
`time.Now()`, in nanoseconds since the Unix epoch. -/
def handleLogout (now : Nat) (w : http.ResponseWriter) (_r : http.Request) :
    http.ResponseWriter :=
  let w1 := http.SetCookie w
    { Name := cookieName
      Value := []
      Expires := some (Time.Add (now : Int) (- time.Second)) }
  let w2 := { w1 with header := w1.header.Set (str "Location") (str "/") }
  w2.WriteHeader http.StatusSeeOther

/-- The authorization endpoint that `handleIndex` hard-codes. -/
def authorizeEndpoint : Bytes := str "http://127.0.0.1:9100/application/o/authorize/?"

/-- The `url.Values` literal of `handleIndex` for one scope string. -/
def authorizeValues (cfg : Config) (scope : Bytes) : url.Values :=
  [(str "client_id", [cfg.clientID]), (str "response_type", [str "code"]),
   (str "redirect_uri", [cfg.redirectURL]), (str "scope", [scope])]

/-- The local `authURL` of `handleIndex`. -/
def authURL (cfg : Config) : Bytes :=
  authorizeEndpoint ++
    (authorizeValues cfg (str "openid profile email vriend_stresslevel")).Encode

/-- The local `authURLWithoutScope` of `handleIndex`. -/
def authURLWithoutScope (cfg : Config) : Bytes :=
  authorizeEndpoint ++ (authorizeValues cfg (str "openid profile email")).Encode

/-- The data `handleIndex` hands to the template. -/
structure IndexData where
  LoginURL : Bytes
  VriendAPIURL : Bytes
  LoginURLWithoutScope : Bytes

/-- The handler `handleIndex`. The template is an outside collaborator:
`tmpl` is the result of `template.ParseFiles`, an error text or the
function that renders the page. -/
def handleIndex (cfg : Config) (tmpl : Except Bytes (IndexData → Bytes))
    (w : http.ResponseWriter) (_r : http.Request) : http.ResponseWriter :=
  match tmpl with
  | Except.error err =>
    http.Error w (str "Template error: " ++ err) http.StatusInternalServerError
  | Except.ok execute =>
    let data : IndexData :=
      { LoginURL := authURL cfg
        VriendAPIURL := cfg.vriendAPIURL
        LoginURLWithoutScope := authURLWithoutScope cfg }
    let w1 := { w with header := w.header.Set (str "Content-Type") (str "text/html; charset=utf-8") }
    w1.Write (execute data)

/-! ## Example inputs -/

/-- A configuration as `init` could load it. -/
def exampleConfig : Config :=
  { clientID := str "demo-client"
    clientSecret := str "s3cret/+"
    redirectURL := str "http://127.0.0.1:1234/oauth/redirect"
    authTokenURL := str "http://127.0.0.1:9100/application/o/token/"
    vriendAPIURL := str "http://127.0.0.1:9000" }

/-- The callback request `GET /oauth/redirect?code=abc` over plain HTTP. -/
def callbackRequest : http.Request := { Method := str "GET", RawQuery := str "code=abc" }

/-- A callback request that carries no `code`. -/
def callbackWithoutCode : http.Request := { Method := str "GET", RawQuery := str "state=xyz" }

/-- A token endpoint that answers 200 with a token. -/
def grantingEndpoint : http.Transport := fun _ =>
  Except.ok ⟨200, str "\x7b\"access_token\":\"tok123\",\"token_type\":\"bearer\",\"expires_in\":3600\x7d"⟩

/-- A token endpoint that rejects the code. -/
def rejectingEndpoint : http.Transport := fun _ =>
  Except.ok ⟨400, str "\x7b\"error\":\"invalid_grant\"\x7d"⟩

/-- A token endpoint that answers 200 with a body that is not JSON. -/
def garbledEndpoint : http.Transport := fun _ => Except.ok ⟨200, str "<html>ok</html>"⟩

/-- A token endpoint whose token holds a byte that no cookie value may
hold: the body is `\x7b"access_token":"a;b"\x7d`. -/
def semicolonTokenEndpoint : http.Transport := fun _ =>
  Except.ok ⟨200, str "\x7b\"access_token\":\"a;b\"\x7d"⟩

/-- A token endpoint whose token is the one byte `;`. -/
def separatorTokenEndpoint : http.Transport := fun _ =>
  Except.ok ⟨200, str "\x7b\"access_token\":\";\"\x7d"⟩

/-- A token endpoint that answers with the status line `HTTP/1.1 099`,
which the Go client accepts as `StatusCode` 99. -/
def malformedStatusEndpoint : http.Transport := fun _ =>
  Except.ok ⟨99, str "\x7b\"error\":\"invalid_grant\"\x7d"⟩

/-- A token endpoint that answers `204 No Content` with a body. -/
def noContentEndpoint : http.Transport := fun _ =>
  Except.ok ⟨204, str "\x7b\"error\":\"invalid_grant\"\x7d"⟩

/-- A token endpoint that cannot be reached. -/
def unreachableEndpoint : http.Transport := fun _ =>
  Except.error (str "dial tcp 127.0.0.1:9100: connect: connection refused")

/-! ## Lemmas on strings and query escaping -/

theorem cut_append_sep (sep : Byte) (a b : Bytes) (h : sep ∉ a) :
    cut sep (a ++ sep :: b) = (a, b, true) := by
  induction a with
  | nil => simp [cut]
  | cons c cs ih =>
    have hc : c ≠ sep := fun e => h (by simp [e])
    have hcs : sep ∉ cs := fun e => h (by simp [e])
    simp [cut, hc, ih hcs]

theorem cut_not_mem (sep : Byte) (a : Bytes) (h : sep ∉ a) :
    cut sep a = (a, [], false) := by
  induction a with
  | nil => simp [cut]
  | cons c cs ih =>
    have hc : c ≠ sep := fun e => h (by simp [e])
    have hcs : sep ∉ cs := fun e => h (by simp [e])
    simp [cut, hc, ih hcs]

theorem split_not_mem (sep : Byte) (a : Bytes) (h : sep ∉ a) : split sep a = [a] := by
  induction a with
  | nil => simp [split]
  | cons c cs ih =>
    have hc : c ≠ sep := fun e => h (by simp [e])
    have hcs : sep ∉ cs := fun e => h (by simp [e])
    simp [split, hc, ih hcs]

theorem split_append_sep (sep : Byte) (a b : Bytes) (h : sep ∉ a) :
    split sep (a ++ sep :: b) = a :: split sep b := by
  induction a with
  | nil => simp [split]
  | cons c cs ih =>
    have hc : c ≠ sep := fun e => h (by simp [e])
    have hcs : sep ∉ cs := fun e => h (by simp [e])
    simp [split, hc, ih hcs]

namespace url

set_option maxRecDepth 100000 in
theorem unreserved_facts : ∀ c : Byte, shouldEscape c = false →
    c ≠ 37 ∧ c ≠ 43 ∧ c ≠ 32 := by decide

set_option maxRecDepth 100000 in
theorem escaped_facts : ∀ c : Byte, escaped c = true →
    c ≠ 38 ∧ c ≠ 61 ∧ c ≠ 59 ∧ c ≠ 35 ∧ c ≠ 63 ∧ c ≠ 32 := by decide

set_option maxRecDepth 100000 in
theorem hex_facts : ∀ c : Byte,
    ishex (upperhex (c.val / 16)) = true ∧ ishex (upperhex (c.val % 16)) = true ∧
    (Fin.ofNat (unhex (upperhex (c.val / 16)) * 16 + unhex (upperhex (c.val % 16))) : Byte) = c ∧
    escaped (upperhex (c.val / 16)) = true ∧ escaped (upperhex (c.val % 16)) = true := by
  decide

theorem QueryEscape_escaped (s : Bytes) : ∀ c ∈ QueryEscape s, escaped c = true := by
  induction s with
  | nil => simp [QueryEscape]
  | cons c cs ih =>
    intro x hx
    unfold QueryEscape at hx
    split at hx
    · rcases List.mem_cons.1 hx with h | h
      · subst h; decide
      · exact ih x h
    · split at hx
      · simp only [List.mem_cons] at hx
        rcases hx with h | h | h | h
        · subst h; decide
        · subst h; exact (hex_facts c).2.2.2.1
        · subst h; exact (hex_facts c).2.2.2.2
        · exact ih x h
      · rcases List.mem_cons.1 hx with h | h
        · subst h
          rename_i hne
          simp only [Bool.not_eq_true] at hne
          simp [escaped, hne]
        · exact ih x h

theorem QueryUnescape_percent (h1 h2 : Byte) (rest : Bytes) :
    QueryUnescape (37 :: h1 :: h2 :: rest) =
      if ishex h1 ∧ ishex h2 then
        (QueryUnescape rest).map (fun t => Fin.ofNat (unhex h1 * 16 + unhex h2) :: t)
      else none := by
  simp [QueryUnescape]

theorem QueryUnescape_plain (c : Byte) (cs : Bytes) (h : c ≠ 37) :
    QueryUnescape (c :: cs) =
      if c = 43 then (QueryUnescape cs).map (fun t => 32 :: t)
      else (QueryUnescape cs).map (fun t => c :: t) := by
  rcases cs with _ | ⟨a, _ | ⟨b, t⟩⟩ <;> simp [QueryUnescape, h]

theorem QueryUnescape_QueryEscape (s : Bytes) : QueryUnescape (QueryEscape s) = some s := by
  induction s with
  | nil => simp [QueryEscape, QueryUnescape]
  | cons c cs ih =>
    unfold QueryEscape
    split
    · rename_i h
      subst h
      rw [QueryUnescape_plain _ _ (by decide), ih]
      rfl
    · split
      · have hf := hex_facts c
        rw [QueryUnescape_percent, ih]
        simp [hf.1, hf.2.1, hf.2.2.1]
      · rename_i hne
        simp only [Bool.not_eq_true] at hne
        have hf := unreserved_facts c hne
        rw [QueryUnescape_plain _ _ hf.1, ih]
        simp [hf.2.1]

theorem QueryEscape_not_mem (s : Bytes) :
    (38 : Byte) ∉ QueryEscape s ∧ (61 : Byte) ∉ QueryEscape s ∧ (59 : Byte) ∉ QueryEscape s ∧
    (35 : Byte) ∉ QueryEscape s ∧ (63 : Byte) ∉ QueryEscape s := by
  refine ⟨?_, ?_, ?_, ?_, ?_⟩ <;> intro h <;>
    have hf := escaped_facts _ (QueryEscape_escaped s _ h) <;> simp at hf

theorem parseSegment_pair (acc : Values × Bool) (k v : Bytes) :
    parseSegment acc (QueryEscape k ++ 61 :: QueryEscape v) = (acc.1.Add k v, acc.2) := by
  have hk := QueryEscape_not_mem k
  have hv := QueryEscape_not_mem v
  have h59 : (59 : Byte) ∉ QueryEscape k ++ 61 :: QueryEscape v := by
    simp [hk.2.2.1, hv.2.2.1]
  unfold parseSegment
  rw [if_neg h59, if_neg (by simp), cut_append_sep _ _ _ hk.2.1]
  simp [QueryUnescape_QueryEscape]

theorem encodePairs_cons_cons (kv kv2 : Bytes × Bytes) (rest : List (Bytes × Bytes)) :
    encodePairs (kv :: kv2 :: rest) =
      QueryEscape kv.1 ++ 61 :: QueryEscape kv.2 ++ 38 :: encodePairs (kv2 :: rest) := rfl

theorem encodePairs_cons (kv : Bytes × Bytes) (rest : List (Bytes × Bytes)) :
    split 38 (encodePairs (kv :: rest)) =
      (QueryEscape kv.1 ++ 61 :: QueryEscape kv.2) ::
        (if rest = [] then [] else split 38 (encodePairs rest)) := by
  have hk := QueryEscape_not_mem kv.1
  have hv := QueryEscape_not_mem kv.2
  have h38 : (38 : Byte) ∉ QueryEscape kv.1 ++ 61 :: QueryEscape kv.2 := by
    simp [hk.1, hv.1]
  cases rest with
  | nil => simpa [encodePairs] using split_not_mem 38 _ h38
  | cons kv2 rest2 =>
    have := split_append_sep 38 _ (encodePairs (kv2 :: rest2)) h38
    rw [encodePairs_cons_cons]
    simpa using this

/-- Parsing the text of a list of pairs adds the pairs one by one. -/
theorem foldl_parseSegment_encodePairs (kvs : List (Bytes × Bytes)) (acc : Values × Bool) :
    (split 38 (encodePairs kvs)).foldl parseSegment acc =
      (kvs.foldl (fun (a : Values) kv => a.Add kv.1 kv.2) acc.1, acc.2) := by
  induction kvs generalizing acc with
  | nil => simp [encodePairs, split, parseSegment]
  | cons kv rest ih =>
    rw [encodePairs_cons, List.foldl_cons, parseSegment_pair]
    cases rest with
    | nil => simp
    | cons kv2 rest2 =>
      rw [if_neg (by simp), ih]
      simp

/-- Round trip of `ParseQuery` over the text of a list of pairs. -/
theorem ParseQuery_encodePairs (kvs : List (Bytes × Bytes)) :
    ParseQuery (encodePairs kvs) =
      (kvs.foldl (fun (a : Values) kv => a.Add kv.1 kv.2) [], false) := by
  unfold ParseQuery
  rw [foldl_parseSegment_encodePairs]

theorem encodePairs_escaped (kvs : List (Bytes × Bytes)) :
    ∀ c ∈ encodePairs kvs, escaped c = true ∨ c = 61 ∨ c = 38 := by
  induction kvs with
  | nil => simp [encodePairs]
  | cons kv rest ih =>
    intro c hc
    cases rest with
    | nil =>
      simp only [encodePairs, List.mem_append, List.mem_cons] at hc
      rcases hc with h | h | h
      · exact Or.inl (QueryEscape_escaped _ _ h)
      · exact Or.inr (Or.inl h)
      · exact Or.inl (QueryEscape_escaped _ _ h)
    | cons kv2 rest2 =>
      rw [encodePairs_cons_cons] at hc
      simp only [List.mem_append, List.mem_cons] at hc
      rcases hc with (h | h | h) | h | h
      · exact Or.inl (QueryEscape_escaped _ _ h)
      · exact Or.inr (Or.inl h)
      · exact Or.inl (QueryEscape_escaped _ _ h)
      · exact Or.inr (Or.inr h)
      · exact ih c h

end url

/-! ## Lemmas on the two forms of `main.go` -/

namespace url
theorem encodeKey_nil_single (ke v : Bytes) :
    encodeKey ke [] [v] = ke ++ 61 :: QueryEscape v := by
  simp [encodeKey]

theorem encodeKey_single (ke buf v : Bytes) (h : buf ≠ []) :
    encodeKey ke buf [v] = buf ++ 38 :: (ke ++ 61 :: QueryEscape v) := by
  cases buf with
  | nil => exact absurd rfl h
  | cons b bs => simp [encodeKey]
end url

theorem tokenRequestData_eq (cfg : Config) (code : Bytes) :
    tokenRequestData cfg code =
      [(str "client_id", [cfg.clientID]), (str "client_secret", [cfg.clientSecret]),
       (str "grant_type", [str "authorization_code"]), (str "code", [code]),
        (str "redirect_uri", [cfg.redirectURL])] := by
  simp +decide [tokenRequestData, url.Values.Set]

theorem tokenRequestData_sortedKeys (cfg : Config) (code : Bytes) :
    url.sortedKeys (tokenRequestData cfg code) =
      [str "client_id", str "client_secret", str "code", str "grant_type",
       str "redirect_uri"] := by
  rw [tokenRequestData_eq]
  simp only [url.sortedKeys, List.map]
  decide

theorem tokenRequestData_Encode (cfg : Config) (code : Bytes) :
    (tokenRequestData cfg code).Encode =
      url.encodePairs [(str "client_id", cfg.clientID), (str "client_secret", cfg.clientSecret),
        (str "code", code), (str "grant_type", str "authorization_code"),
        (str "redirect_uri", cfg.redirectURL)] := by
  unfold url.Values.Encode
  rw [tokenRequestData_sortedKeys, tokenRequestData_eq]
  generalize hd : [(str "client_id", [cfg.clientID]), (str "client_secret", [cfg.clientSecret]),
       (str "grant_type", [str "authorization_code"]), (str "code", [code]),
        (str "redirect_uri", [cfg.redirectURL])] = d
  have h1 : d.lookup (str "client_id") = some [cfg.clientID] := by subst hd; rfl
  have h2 : d.lookup (str "client_secret") = some [cfg.clientSecret] := by subst hd; rfl
  have h3 : d.lookup (str "code") = some [code] := by subst hd; rfl
  have h4 : d.lookup (str "grant_type") = some [str "authorization_code"] := by subst hd; rfl
  have h5 : d.lookup (str "redirect_uri") = some [cfg.redirectURL] := by subst hd; rfl
  simp [h1, h2, h3, h4, h5, url.encodeKey_nil_single, url.encodeKey_single, url.encodePairs]

theorem authorizeValues_sortedKeys (cfg : Config) (scope : Bytes) :
    url.sortedKeys (authorizeValues cfg scope) =
      [str "client_id", str "redirect_uri", str "response_type", str "scope"] := by
  simp only [url.sortedKeys, authorizeValues, List.map]
  decide

theorem authorizeValues_Encode (cfg : Config) (scope : Bytes) :
    (authorizeValues cfg scope).Encode =
      url.encodePairs [(str "client_id", cfg.clientID), (str "redirect_uri", cfg.redirectURL),
        (str "response_type", str "code"), (str "scope", scope)] := by
  unfold url.Values.Encode
  rw [authorizeValues_sortedKeys]
  have h1 : (authorizeValues cfg scope).lookup (str "client_id") = some [cfg.clientID] := rfl
  have h2 : (authorizeValues cfg scope).lookup (str "redirect_uri") = some [cfg.redirectURL] := rfl
  have h3 : (authorizeValues cfg scope).lookup (str "response_type") = some [str "code"] := rfl
  have h4 : (authorizeValues cfg scope).lookup (str "scope") = some [scope] := rfl
  simp [h1, h2, h3, h4, url.encodeKey_nil_single, url.encodeKey_single, url.encodePairs]

theorem ParseQuery_tokenRequestData (cfg : Config) (code : Bytes) :
    url.ParseQuery (tokenRequestData cfg code).Encode =
      ([(str "client_id", [cfg.clientID]), (str "client_secret", [cfg.clientSecret]),
        (str "code", [code]), (str "grant_type", [str "authorization_code"]),
        (str "redirect_uri", [cfg.redirectURL])], false) := by
  rw [tokenRequestData_Encode, url.ParseQuery_encodePairs]
  rfl


theorem ParseQuery_authorizeValues (cfg : Config) (scope : Bytes) :
    url.ParseQuery (authorizeValues cfg scope).Encode =
      ([(str "client_id", [cfg.clientID]), (str "redirect_uri", [cfg.redirectURL]),
        (str "response_type", [str "code"]), (str "scope", [scope])], false) := by
  rw [authorizeValues_Encode, url.ParseQuery_encodePairs]
  rfl

theorem RawQuery_authorize (q : Bytes) (h35 : (35 : Byte) ∉ q) :
    url.RawQuery (authorizeEndpoint ++ q) = q := by
  have e : authorizeEndpoint ++ q = str "http://127.0.0.1:9100/application/o/authorize/" ++ 63 :: q := by
    rfl
  have h1 : (35 : Byte) ∉ authorizeEndpoint ++ q := by
    intro h
    rcases List.mem_append.1 h with h | h
    · revert h; decide
    · exact h35 h
  unfold url.RawQuery
  rw [cut_not_mem 35 _ h1, e, cut_append_sep 63 _ _ (by decide)]


/-! ## Lemmas on the response helpers -/

namespace http

theorem lookup_Set_self (h : Header) (k v : Bytes) :
    (url.Values.Set h k v).lookup k = some [v] := by
  induction h with
  | nil => simp [url.Values.Set, List.lookup]
  | cons p rest ih =>
    obtain ⟨k1, vs⟩ := p
    by_cases e : k1 = k
    · subst e; simp [url.Values.Set, List.lookup]
    · have e2 : (k == k1) = false := by simpa using fun h => e h.symm
      simp [url.Values.Set, e, List.lookup, e2, ih]

theorem lookup_Set_ne (h : Header) (k k1 v : Bytes) (hne : k ≠ k1) :
    (url.Values.Set h k1 v).lookup k = h.lookup k := by
  induction h with
  | nil =>
    have e2 : (k == k1) = false := by simpa using hne
    simp [url.Values.Set, List.lookup, e2]
  | cons p rest ih =>
    obtain ⟨k2, vs⟩ := p
    by_cases e : k2 = k1
    · subst e
      have e2 : (k == k2) = false := by simpa using hne
      simp [url.Values.Set, List.lookup, e2]
    · by_cases e3 : k = k2
      · subst e3; simp [url.Values.Set, e, List.lookup]
      · have e4 : (k == k2) = false := by simpa using e3
        simp [url.Values.Set, e, List.lookup, e4, ih]

theorem lookup_Del_ne (h : Header) (k k1 : Bytes) (hne : k ≠ k1) :
    (Header.Del h k1).lookup k = h.lookup k := by
  induction h with
  | nil => simp [Header.Del]
  | cons p rest ih =>
    obtain ⟨k2, vs⟩ := p
    unfold Header.Del at ih ⊢
    simp only [ne_eq, decide_not] at ih ⊢
    by_cases e : k2 = k1
    · subst e
      have e2 : (k == k2) = false := by simpa using hne
      simp [List.filter, List.lookup, e2, ih]
    · by_cases e3 : k = k2
      · subst e3; simp [List.filter, e, List.lookup]
      · have e4 : (k == k2) = false := by simpa using e3
        simp [List.filter, e, List.lookup, e4, ih]

/-- A code that `WriteHeader` takes as the status of the response: 101, or
200 to 999. -/
theorem WriteHeader_final (w : ResponseWriter) (code : Nat) (hs : w.status = none)
    (hp : w.panicked = false) (hc : code = 101 ∨ (200 ≤ code ∧ code ≤ 999)) :
    w.WriteHeader code = { w with status := some code } := by
  unfold ResponseWriter.WriteHeader
  rw [hp, hs]
  have h1 : ¬ (code < 100 ∨ 999 < code) := by omega
  have h2 : ¬ (100 ≤ code ∧ code ≤ 199 ∧ code ≠ 101) := by omega
  simp [h1, h2]

/-- A code outside 100 to 999 makes `WriteHeader` panic. -/
theorem WriteHeader_panics (w : ResponseWriter) (code : Nat) (hs : w.status = none)
    (hp : w.panicked = false) (hc : code < 100 ∨ 999 < code) :
    w.WriteHeader code = { w with panicked := true } := by
  unfold ResponseWriter.WriteHeader
  rw [hp, hs]
  simp [hc]

theorem Write_after_status (w : ResponseWriter) (b : Bytes) (code : Nat)
    (hs : w.status = some code) (hp : w.panicked = false) :
    w.Write b = if bodyAllowedForStatus code then { w with body := w.body ++ b } else w := by
  unfold ResponseWriter.Write ResponseWriter.WriteHeader
  simp [hp, hs]

/-- What `http.Error` leaves behind on a writer whose status is open, for
a code that `WriteHeader` takes as the status. -/
theorem Error_spec (w : ResponseWriter) (msg : Bytes) (code : Nat) (hs : w.status = none)
    (hp : w.panicked = false) (hc : code = 101 ∨ (200 ≤ code ∧ code ≤ 999)) :
    (Error w msg code).status = some code ∧
    (Error w msg code).cookies = w.cookies ∧
    (Error w msg code).body =
      (if bodyAllowedForStatus code then w.body ++ (msg ++ [10]) else w.body) ∧
    (Error w msg code).header.lookup (str "Location") = w.header.lookup (str "Location") ∧
    (Error w msg code).panicked = false := by
  have e : Error w msg code =
      (if bodyAllowedForStatus code then
        { w with
          header := Header.Set (Header.Set (Header.Del w.header (str "Content-Length"))
            (str "Content-Type") (str "text/plain; charset=utf-8"))
            (str "X-Content-Type-Options") (str "nosniff")
          status := some code
          body := w.body ++ (msg ++ [10]) }
      else
        { w with
          header := Header.Set (Header.Set (Header.Del w.header (str "Content-Length"))
            (str "Content-Type") (str "text/plain; charset=utf-8"))
            (str "X-Content-Type-Options") (str "nosniff")
          status := some code }) := by
    unfold Error
    simp only []
    generalize Header.Set (Header.Set (Header.Del w.header (str "Content-Length"))
      (str "Content-Type") (str "text/plain; charset=utf-8"))
      (str "X-Content-Type-Options") (str "nosniff") = H
    rw [WriteHeader_final { w with header := H } code hs hp hc,
      Write_after_status { w with header := H, status := some code } _ code rfl hp]
  have hl : (Header.Set (Header.Set (Header.Del w.header (str "Content-Length"))
      (str "Content-Type") (str "text/plain; charset=utf-8"))
      (str "X-Content-Type-Options") (str "nosniff")).lookup (str "Location") =
      w.header.lookup (str "Location") := by
    unfold Header.Set
    rw [lookup_Set_ne _ _ _ _ (by decide), lookup_Set_ne _ _ _ _ (by decide),
      lookup_Del_ne _ _ _ (by decide)]
  rw [e]
  split
  · exact ⟨rfl, rfl, rfl, hl, hp⟩
  · exact ⟨rfl, rfl, rfl, hl, hp⟩

/-- With a code outside 100 to 999 `http.Error` panics in `WriteHeader`:
no status is fixed and no body is written. -/
theorem Error_panics (w : ResponseWriter) (msg : Bytes) (code : Nat) (hs : w.status = none)
    (hp : w.panicked = false) (hc : code < 100 ∨ 999 < code) :
    (Error w msg code).panicked = true ∧ (Error w msg code).status = none ∧
    (Error w msg code).body = w.body ∧ (Error w msg code).cookies = w.cookies := by
  unfold Error
  simp only []
  generalize Header.Set (Header.Set (Header.Del w.header (str "Content-Length"))
    (str "Content-Type") (str "text/plain; charset=utf-8"))
    (str "X-Content-Type-Options") (str "nosniff") = H
  rw [WriteHeader_panics { w with header := H } code hs hp hc]
  unfold ResponseWriter.Write
  simp [hs]

/-- What `http.Redirect` with status 303 leaves behind on a writer whose
status is open. -/
theorem Redirect_spec (w : ResponseWriter) (r : Request) (target : Bytes)
    (hs : w.status = none) (hp : w.panicked = false) :
    (Redirect w r target 303).status = some 303 ∧
    (Redirect w r target 303).cookies = w.cookies ∧
    (Redirect w r target 303).header.Get (str "Location") = target ∧
    (Redirect w r target 303).panicked = false := by
  have hl : ∀ h : Header, (if (!(w.header.lookup (str "Content-Type")).isSome) = true ∧
        (r.Method = str "GET" ∨ r.Method = str "HEAD")
      then Header.Set (Header.Set h (str "Location") target) (str "Content-Type")
        (str "text/html; charset=utf-8")
      else Header.Set h (str "Location") target).lookup (str "Location") = some [target] := by
    intro h
    split
    · unfold Header.Set
      rw [lookup_Set_ne _ _ _ _ (by decide), lookup_Set_self]
    · unfold Header.Set
      rw [lookup_Set_self]
  have e : ∃ b : Bytes, Redirect w r target 303 =
      { w with
        header := (if (!(w.header.lookup (str "Content-Type")).isSome) = true ∧
            (r.Method = str "GET" ∨ r.Method = str "HEAD")
          then Header.Set (Header.Set w.header (str "Location") target) (str "Content-Type")
            (str "text/html; charset=utf-8")
          else Header.Set w.header (str "Location") target)
        status := some 303
        body := b } := by
    unfold Redirect
    simp only []
    generalize (if (!(w.header.lookup (str "Content-Type")).isSome) = true ∧
            (r.Method = str "GET" ∨ r.Method = str "HEAD")
          then Header.Set (Header.Set w.header (str "Location") target) (str "Content-Type")
            (str "text/html; charset=utf-8")
          else Header.Set w.header (str "Location") target) = H
    rw [WriteHeader_final { w with header := H } 303 hs hp (Or.inr (by decide))]
    split
    · rw [Write_after_status { w with header := H, status := some 303 } _ 303 rfl hp]
      exact ⟨_, rfl⟩
    · exact ⟨w.body, rfl⟩
  obtain ⟨b, e⟩ := e
  rw [e]
  refine ⟨rfl, rfl, ?_, hp⟩
  unfold Header.Get url.Values.Get
  simp only []
  rw [hl]

/-- The `Set-Cookie` line of the session cookie. -/
theorem sessionCookie_String (token : Bytes) (tls : Bool) :
    Cookie.String
      { Name := str "access_token"
        Value := token
        Path := str "/"
        HttpOnly := true
        Secure := tls
        SameSite := SameSite.SameSiteLaxMode } =
      str "access_token=" ++ sanitizeCookieValue token ++ str "; Path=/; HttpOnly" ++
        (if tls then str "; Secure" else []) ++ str "; SameSite=Lax" := by
  have hv : isCookieNameValid (str "access_token") = true := by decide
  have hpath : sanitizeCookiePath (str "/") = str "/" := by decide
  have hne : str "/" ≠ [] := by decide
  unfold Cookie.String
  simp only [hv, hpath, hne, Bool.not_true, Bool.false_eq_true, if_false, if_true, ne_eq,
    not_false_eq_true]
  cases tls <;> simp [str]

/-- The `Set-Cookie` line of the cookie that `handleLogout` sets. -/
theorem logoutCookie_String (t : Time) (ht : validCookieExpires t = true) :
    Cookie.String { Name := str "access_token", Value := [], Expires := some t } =
      str "access_token=; Expires=" ++ time.formatHTTP t := by
  have hv : isCookieNameValid (str "access_token") = true := by decide
  have hs : sanitizeCookieValue [] = [] := by decide
  unfold Cookie.String
  simp only [hv, hs, ht, Bool.not_true, Bool.false_eq_true, if_false, if_true, ne_eq,
    not_true_eq_false]
  simp [str]

end http

/-! ## The branches of `handleOAuthCallback` -/

theorem NewRecorder_status : http.NewRecorder.status = none := rfl

theorem cookieName_valid : http.isCookieNameValid cookieName = true := by decide

theorem handleOAuthCallback_no_code (cfg : Config) (post : http.Transport) (w : http.ResponseWriter)
    (r : http.Request) (h : r.Query.Get (str "code") = []) :
    handleOAuthCallback cfg post w r =
      ⟨http.Error w (str "Missing code") http.StatusBadRequest, []⟩ := by
  simp [handleOAuthCallback, h]

theorem handleOAuthCallback_transport_error (cfg : Config) (post : http.Transport)
    (w : http.ResponseWriter) (r : http.Request) (err : Bytes)
    (h : r.Query.Get (str "code") ≠ [])
    (hp : post (tokenExchangeCall cfg (r.Query.Get (str "code"))) = Except.error err) :
    handleOAuthCallback cfg post w r =
      ⟨http.Error w (str "Token exchange failed: " ++ err) http.StatusInternalServerError,
        [tokenExchangeCall cfg (r.Query.Get (str "code"))]⟩ := by
  simp [handleOAuthCallback, h, hp]

theorem handleOAuthCallback_rejected (cfg : Config) (post : http.Transport)
    (w : http.ResponseWriter) (r : http.Request) (resp : http.Response)
    (h : r.Query.Get (str "code") ≠ [])
    (hp : post (tokenExchangeCall cfg (r.Query.Get (str "code"))) = Except.ok resp)
    (hs : resp.StatusCode ≠ http.StatusOK) :
    handleOAuthCallback cfg post w r =
      ⟨http.Error w (str "Token exchange failed: " ++ resp.Body) resp.StatusCode,
        [tokenExchangeCall cfg (r.Query.Get (str "code"))]⟩ := by
  simp [handleOAuthCallback, h, hp, hs]

theorem handleOAuthCallback_granted (cfg : Config) (post : http.Transport)
    (w : http.ResponseWriter) (r : http.Request) (resp : http.Response)
    (h : r.Query.Get (str "code") ≠ [])
    (hp : post (tokenExchangeCall cfg (r.Query.Get (str "code"))) = Except.ok resp)
    (hs : resp.StatusCode = http.StatusOK)
    (hj : (json.Unmarshal resp.Body json.tokenResponse.zero).2 = none)
    (ht : (json.Unmarshal resp.Body json.tokenResponse.zero).1.AccessToken ≠ []) :
    handleOAuthCallback cfg post w r =
      ⟨http.Redirect
          (http.SetCookie w
            { Name := cookieName
              Value := (json.Unmarshal resp.Body json.tokenResponse.zero).1.AccessToken
              Path := str "/"
              HttpOnly := true
              Secure := r.TLS
              SameSite := http.SameSite.SameSiteLaxMode })
          r (str "/") http.StatusSeeOther,
        [tokenExchangeCall cfg (r.Query.Get (str "code"))]⟩ := by
  simp [handleOAuthCallback, h, hp, hs, hj, ht]

theorem handleOAuthCallback_no_session (cfg : Config) (post : http.Transport)
    (w : http.ResponseWriter) (r : http.Request) (resp : http.Response)
    (h : r.Query.Get (str "code") ≠ [])
    (hp : post (tokenExchangeCall cfg (r.Query.Get (str "code"))) = Except.ok resp)
    (hs : resp.StatusCode = http.StatusOK)
    (hj : (json.Unmarshal resp.Body json.tokenResponse.zero).2 ≠ none ∨
      (json.Unmarshal resp.Body json.tokenResponse.zero).1.AccessToken = []) :
    handleOAuthCallback cfg post w r =
      ⟨http.Redirect w r (str "/") http.StatusSeeOther,
        [tokenExchangeCall cfg (r.Query.Get (str "code"))]⟩ := by
  have hn : ¬ ((json.Unmarshal resp.Body json.tokenResponse.zero).2 = none ∧
      (json.Unmarshal resp.Body json.tokenResponse.zero).1.AccessToken ≠ []) := by
    rintro ⟨h1, h2⟩
    rcases hj with h3 | h3
    · exact h3 h1
    · exact h2 h3
  simp only [handleOAuthCallback, h, hp, hs, if_false, if_true, ne_eq, not_true_eq_false,
    if_neg hn]

theorem SetCookie_line (w : http.ResponseWriter) (c : http.Cookie) (line : Bytes)
    (h : c.String = line) (hne : line ≠ []) :
    http.SetCookie w c = { w with cookies := w.cookies ++ [line] } := by
  unfold http.SetCookie
  rw [h, if_pos hne]

theorem WriteHeader_cookies (w : http.ResponseWriter) (code : Nat) :
    (w.WriteHeader code).cookies = w.cookies := by
  unfold http.ResponseWriter.WriteHeader
  split
  · rfl
  · split
    · rfl
    · split
      · rfl
      · split <;> rfl

theorem Write_cookies (w : http.ResponseWriter) (b : Bytes) : (w.Write b).cookies = w.cookies := by
  unfold http.ResponseWriter.Write
  split
  · rfl
  · simp only []
    split
    · split
      · exact WriteHeader_cookies w _
      · exact WriteHeader_cookies w _
    · exact WriteHeader_cookies w _

theorem Error_cookies (w : http.ResponseWriter) (msg : Bytes) (code : Nat) :
    (http.Error w msg code).cookies = w.cookies := by
  unfold http.Error
  simp only []
  rw [Write_cookies, WriteHeader_cookies]

theorem sanitizeCookieValue_plain (token : Bytes)
    (h : ∀ b ∈ token, http.validCookieValueByte b = true ∧ b ≠ 32 ∧ b ≠ 44) :
    http.sanitizeCookieValue token = token := by
  have hf : token.filter http.validCookieValueByte = token :=
    List.filter_eq_self.2 (fun b hb => (h b hb).1)
  unfold http.sanitizeCookieValue
  simp only [hf]
  rw [if_neg]
  rintro (h1 | h1)
  · exact (h _ h1).2.1 rfl
  · exact (h _ h1).2.2 rfl

theorem sanitizeCookieValue_ne_nil (token : Bytes)
    (h : ∃ b ∈ token, http.validCookieValueByte b = true) :
    http.sanitizeCookieValue token ≠ [] := by
  obtain ⟨b, hb, hv⟩ := h
  have hm : b ∈ token.filter http.validCookieValueByte := List.mem_filter.2 ⟨hb, hv⟩
  unfold http.sanitizeCookieValue
  simp only []
  split
  · simp
  · intro e
    rw [e] at hm
    exact absurd hm (List.not_mem_nil b)

theorem sessionCookie_named (token : Bytes) (tls : Bool) :
    http.Cookie.String
      { Name := cookieName
        Value := token
        Path := str "/"
        HttpOnly := true
        Secure := tls
        SameSite := http.SameSite.SameSiteLaxMode } =
      str "access_token=" ++ http.sanitizeCookieValue token ++ str "; Path=/; HttpOnly" ++
        (if tls then str "; Secure" else []) ++ str "; SameSite=Lax" :=
  http.sessionCookie_String token tls

theorem sessionLine_ne_nil (v : Bytes) (tls : Bool) :
    str "access_token=" ++ v ++ str "; Path=/; HttpOnly" ++
      (if tls then str "; Secure" else []) ++ str "; SameSite=Lax" ≠ [] := by
  simp [str]

/-! ## What each branch of the callback handler answers -/

theorem outcome_without_code (cfg : Config) (post : http.Transport) (r : http.Request)
    (h : r.Query.lookup (str "code") = none ∨ r.Query.Get (str "code") = []) :
    (handleOAuthCallback cfg post http.NewRecorder r).w.status = some 400 ∧
    (handleOAuthCallback cfg post http.NewRecorder r).w.cookies = [] ∧
    (handleOAuthCallback cfg post http.NewRecorder r).w.header.lookup (str "Location") = none ∧
    (handleOAuthCallback cfg post http.NewRecorder r).w.body = str "Missing code\n" ∧
    (handleOAuthCallback cfg post http.NewRecorder r).posts = [] := by
  have hg : r.Query.Get (str "code") = [] := by
    rcases h with h | h
    · unfold url.Values.Get
      rw [h]
    · exact h
  rw [handleOAuthCallback_no_code cfg post _ r hg]
  have e := http.Error_spec http.NewRecorder (str "Missing code") http.StatusBadRequest rfl rfl
    (Or.inr (by decide))
  refine ⟨e.1, e.2.1, ?_, ?_, rfl⟩
  · rw [e.2.2.2.1]; rfl
  · rw [e.2.2.1]; rfl

theorem outcome_granted (cfg : Config) (post : http.Transport) (r : http.Request)
    (resp : http.Response) (tr : json.tokenResponse)
    (hcode : r.Query.Get (str "code") ≠ [])
    (hpost : post (tokenExchangeCall cfg (r.Query.Get (str "code"))) = Except.ok resp)
    (hstatus : resp.StatusCode = 200)
    (hparse : json.Unmarshal resp.Body json.tokenResponse.zero = (tr, none))
    (htoken : tr.AccessToken ≠ []) :
    (handleOAuthCallback cfg post http.NewRecorder r).w.cookies =
      [str "access_token=" ++ http.sanitizeCookieValue tr.AccessToken ++
        str "; Path=/; HttpOnly" ++ (if r.TLS then str "; Secure" else []) ++
        str "; SameSite=Lax"] ∧
    (handleOAuthCallback cfg post http.NewRecorder r).w.status = some 303 ∧
    (handleOAuthCallback cfg post http.NewRecorder r).w.header.Get (str "Location") = str "/" := by
  have hj : (json.Unmarshal resp.Body json.tokenResponse.zero).2 = none := by rw [hparse]
  have ht : (json.Unmarshal resp.Body json.tokenResponse.zero).1.AccessToken ≠ [] := by
    rw [hparse]; exact htoken
  rw [handleOAuthCallback_granted cfg post _ r resp hcode hpost hstatus hj ht]
  rw [SetCookie_line _ _ _ (sessionCookie_named _ r.TLS) (sessionLine_ne_nil _ _), hparse]
  have e := http.Redirect_spec
    { http.NewRecorder with cookies := http.NewRecorder.cookies ++
        [str "access_token=" ++ http.sanitizeCookieValue tr.AccessToken ++
          str "; Path=/; HttpOnly" ++ (if r.TLS then str "; Secure" else []) ++
          str "; SameSite=Lax"] }
    r (str "/") rfl rfl
  exact ⟨e.2.1, e.1, e.2.2.1⟩

theorem outcome_rejected (cfg : Config) (post : http.Transport) (r : http.Request)
    (resp : http.Response)
    (hcode : r.Query.Get (str "code") ≠ [])
    (hpost : post (tokenExchangeCall cfg (r.Query.Get (str "code"))) = Except.ok resp)
    (hstatus : resp.StatusCode = 101 ∨ (201 ≤ resp.StatusCode ∧ resp.StatusCode ≤ 999)) :
    (handleOAuthCallback cfg post http.NewRecorder r).w.status = some resp.StatusCode ∧
    (handleOAuthCallback cfg post http.NewRecorder r).w.body =
      (if http.bodyAllowedForStatus resp.StatusCode
        then str "Token exchange failed: " ++ resp.Body ++ str "\n" else []) ∧
    (handleOAuthCallback cfg post http.NewRecorder r).w.header.lookup (str "Location") = none ∧
    (handleOAuthCallback cfg post http.NewRecorder r).w.cookies = [] ∧
    (handleOAuthCallback cfg post http.NewRecorder r).w.panicked = false := by
  have hne : resp.StatusCode ≠ http.StatusOK := by
    unfold http.StatusOK
    omega
  rw [handleOAuthCallback_rejected cfg post _ r resp hcode hpost hne]
  have e := http.Error_spec http.NewRecorder (str "Token exchange failed: " ++ resp.Body)
    resp.StatusCode rfl rfl (by omega)
  refine ⟨e.1, ?_, ?_, e.2.1, e.2.2.2.2⟩
  · rw [e.2.2.1]
    split <;> rfl
  · rw [e.2.2.2.1]; rfl

theorem outcome_transport_failure (cfg : Config) (post : http.Transport)
    (r : http.Request) (e : Bytes)
    (hcode : r.Query.Get (str "code") ≠ [])
    (hpost : post (tokenExchangeCall cfg (r.Query.Get (str "code"))) = Except.error e) :
    (handleOAuthCallback cfg post http.NewRecorder r).w.status = some 500 ∧
    (handleOAuthCallback cfg post http.NewRecorder r).w.body =
      str "Token exchange failed: " ++ e ++ str "\n" ∧
    e <:+: (handleOAuthCallback cfg post http.NewRecorder r).w.body ∧
    (handleOAuthCallback cfg post http.NewRecorder r).w.cookies = [] ∧
    (handleOAuthCallback cfg post http.NewRecorder r).w.header.lookup (str "Location") = none := by
  rw [handleOAuthCallback_transport_error cfg post _ r e hcode hpost]
  have s := http.Error_spec http.NewRecorder (str "Token exchange failed: " ++ e)
    http.StatusInternalServerError rfl rfl (Or.inr (by decide))
  have hb : (http.Error http.NewRecorder (str "Token exchange failed: " ++ e)
      http.StatusInternalServerError).body = str "Token exchange failed: " ++ e ++ str "\n" := by
    rw [s.2.2.1]; rfl
  refine ⟨s.1, hb, ?_, s.2.1, ?_⟩
  · rw [hb]
    exact ⟨str "Token exchange failed: ", str "\n", rfl⟩
  · rw [s.2.2.2.1]; rfl

theorem outcome_no_session (cfg : Config) (post : http.Transport)
    (r : http.Request) (resp : http.Response)
    (hcode : r.Query.Get (str "code") ≠ [])
    (hpost : post (tokenExchangeCall cfg (r.Query.Get (str "code"))) = Except.ok resp)
    (hstatus : resp.StatusCode = 200)
    (hbody : (json.Unmarshal resp.Body json.tokenResponse.zero).2 ≠ none ∨
      (json.Unmarshal resp.Body json.tokenResponse.zero).1.AccessToken = []) :
    (handleOAuthCallback cfg post http.NewRecorder r).w.cookies = [] ∧
    (handleOAuthCallback cfg post http.NewRecorder r).w.status = some 303 ∧
    (handleOAuthCallback cfg post http.NewRecorder r).w.header.Get (str "Location") = str "/" ∧
    (handleOAuthCallback cfg post http.NewRecorder r).w =
      http.Redirect http.NewRecorder r (str "/") 303 := by
  rw [handleOAuthCallback_no_session cfg post _ r resp hcode hpost hstatus hbody]
  have e := http.Redirect_spec http.NewRecorder r (str "/") rfl rfl
  exact ⟨e.2.1, e.1, e.2.2.1, rfl⟩

/-! ## The callback handler -/

/-- Claim C1: a callback whose `code` query parameter is absent or empty is
answered with status 400; no cookie is set, no `Location` is sent and
`http.Post` is not called. -/
theorem callback_without_code (cfg : Config) (post : http.Transport) (r : http.Request)
    (h : r.Query.lookup (str "code") = none ∨ r.Query.Get (str "code") = []) :
    (handleOAuthCallback cfg post http.NewRecorder r).w.status = some 400 ∧
    (handleOAuthCallback cfg post http.NewRecorder r).w.cookies = [] ∧
    (handleOAuthCallback cfg post http.NewRecorder r).w.header.lookup (str "Location") = none ∧
    (handleOAuthCallback cfg post http.NewRecorder r).w.body = str "Missing code\n" ∧
    (handleOAuthCallback cfg post http.NewRecorder r).posts = [] :=
  outcome_without_code cfg post r h

/-- The witness of claim C1: a callback with only `state=xyz` in its query. -/
theorem callback_without_code_witness :
    (callbackWithoutCode.Query.lookup (str "code") = none ∨
      callbackWithoutCode.Query.Get (str "code") = []) ∧
    (handleOAuthCallback exampleConfig grantingEndpoint http.NewRecorder
      callbackWithoutCode).w.status = some 400 ∧
    (handleOAuthCallback exampleConfig grantingEndpoint http.NewRecorder
      callbackWithoutCode).posts = [] :=
  have h := callback_without_code exampleConfig grantingEndpoint callbackWithoutCode
    (Or.inl (by decide))
  ⟨Or.inl (by decide), h.1, h.2.2.2.2⟩


/-- Claim C2, refuted as stated: the token `a;b` arrives with status 200 in
a body that decodes without error, yet the cookie that is set carries the
value `ab`, because `http.SetCookie` drops the `;`. -/
theorem callback_cookie_value_sanitised :
    callbackRequest.Query.Get (str "code") = str "abc" ∧
    semicolonTokenEndpoint (tokenExchangeCall exampleConfig (str "abc")) =
      Except.ok ⟨200, str "\x7b\"access_token\":\"a;b\"\x7d"⟩ ∧
    json.Unmarshal (str "\x7b\"access_token\":\"a;b\"\x7d") json.tokenResponse.zero =
      (⟨str "a;b", [], 0, [], []⟩, none) ∧
    (handleOAuthCallback exampleConfig semicolonTokenEndpoint http.NewRecorder
      callbackRequest).w.cookies = [str "access_token=ab; Path=/; HttpOnly; SameSite=Lax"] ∧
    (handleOAuthCallback exampleConfig semicolonTokenEndpoint http.NewRecorder
      callbackRequest).w.cookies ≠ [str "access_token=a;b; Path=/; HttpOnly; SameSite=Lax"] := by
  refine ⟨by decide, rfl, by rfl, by decide, by decide⟩

/-- Claim C2, amended: with a non-empty code, a 200 answer whose body
decodes without error to a token response with a non-empty access token `T`
makes the handler set exactly one cookie, with the line
`access_token=V; Path=/; HttpOnly[; Secure]; SameSite=Lax`, where `V` is `T`
as `net/http` sanitises a cookie value (the bytes that are not printable
ASCII or are `"`, `;` or `\` are dropped, and the rest is put in double
quotes if it holds a space or a comma) and `; Secure` stands exactly when
the request came over TLS; there is no `Expires` and no `Max-Age`. `V` is
exactly `T` when `T` holds only bytes allowed in a cookie value and no space
or comma. The answer is 303 with `Location: /`. -/
theorem callback_sets_session_cookie (cfg : Config) (post : http.Transport) (r : http.Request)
    (resp : http.Response) (tr : json.tokenResponse)
    (hcode : r.Query.Get (str "code") ≠ [])
    (hpost : post (tokenExchangeCall cfg (r.Query.Get (str "code"))) = Except.ok resp)
    (hstatus : resp.StatusCode = 200)
    (hparse : json.Unmarshal resp.Body json.tokenResponse.zero = (tr, none))
    (htoken : tr.AccessToken ≠ []) :
    (handleOAuthCallback cfg post http.NewRecorder r).w.cookies =
      [str "access_token=" ++ http.sanitizeCookieValue tr.AccessToken ++
        str "; Path=/; HttpOnly" ++ (if r.TLS then str "; Secure" else []) ++
        str "; SameSite=Lax"] ∧
    ((∀ b ∈ tr.AccessToken, http.validCookieValueByte b = true ∧ b ≠ 32 ∧ b ≠ 44) →
      (handleOAuthCallback cfg post http.NewRecorder r).w.cookies =
        [str "access_token=" ++ tr.AccessToken ++
          str "; Path=/; HttpOnly" ++ (if r.TLS then str "; Secure" else []) ++
          str "; SameSite=Lax"]) ∧
    (handleOAuthCallback cfg post http.NewRecorder r).w.status = some 303 ∧
    (handleOAuthCallback cfg post http.NewRecorder r).w.header.Get (str "Location") = str "/" := by
  have h := outcome_granted cfg post r resp tr hcode hpost hstatus hparse htoken
  refine ⟨h.1, ?_, h.2.1, h.2.2⟩
  intro hplain
  rw [h.1, sanitizeCookieValue_plain _ hplain]

set_option maxRecDepth 100000 in
/-- The witness of claim C2: `code=abc` and the token `tok123`. -/
theorem callback_sets_session_cookie_witness :
    callbackRequest.Query.Get (str "code") = str "abc" ∧
    (handleOAuthCallback exampleConfig grantingEndpoint http.NewRecorder callbackRequest).w.cookies =
      [str "access_token=tok123; Path=/; HttpOnly; SameSite=Lax"] ∧
    (handleOAuthCallback exampleConfig grantingEndpoint http.NewRecorder
      callbackRequest).w.status = some 303 ∧
    (handleOAuthCallback exampleConfig grantingEndpoint http.NewRecorder
      callbackRequest).w.header.Get (str "Location") = str "/" :=
  have h := callback_sets_session_cookie exampleConfig grantingEndpoint callbackRequest
    ⟨200, str "\x7b\"access_token\":\"tok123\",\"token_type\":\"bearer\",\"expires_in\":3600\x7d"⟩
    ⟨str "tok123", str "bearer", 3600, [], []⟩
    (by decide) rfl rfl (by rfl) (by decide)
  ⟨by decide, (h.2.1 (by decide)).trans (by decide), h.2.2.1, h.2.2.2⟩

/-- Claim C3, refuted as stated: a token endpoint that answers with status
099 makes `http.Error` panic, so that no response is sent at all, and one
that answers 204 gets its status passed on without any body. -/
theorem callback_rejection_not_passed_on :
    callbackRequest.Query.Get (str "code") = str "abc" ∧
    (handleOAuthCallback exampleConfig malformedStatusEndpoint http.NewRecorder
      callbackRequest).w.panicked = true ∧
    (handleOAuthCallback exampleConfig malformedStatusEndpoint http.NewRecorder
      callbackRequest).w.status = none ∧
    (handleOAuthCallback exampleConfig malformedStatusEndpoint http.NewRecorder
      callbackRequest).w.body = [] ∧
    (handleOAuthCallback exampleConfig noContentEndpoint http.NewRecorder
      callbackRequest).w.status = some 204 ∧
    (handleOAuthCallback exampleConfig noContentEndpoint http.NewRecorder
      callbackRequest).w.body = [] := by
  refine ⟨by decide, by decide, by decide, by decide, by decide, by decide⟩

/-- Claim C3, amended: with a non-empty code, an answer of the token
endpoint whose status is 101 or lies between 201 and 999 is passed on: the
response has that status, no `Location` is sent and no cookie is set,
whatever the downstream body holds, and the handler does not panic. The
body is `Token exchange failed: `, the downstream body and a newline,
unless the status is one that carries no body (101, 204 or 304), for which
nothing is written. -/
theorem callback_passes_rejection_on (cfg : Config) (post : http.Transport) (r : http.Request)
    (resp : http.Response)
    (hcode : r.Query.Get (str "code") ≠ [])
    (hpost : post (tokenExchangeCall cfg (r.Query.Get (str "code"))) = Except.ok resp)
    (hstatus : resp.StatusCode = 101 ∨ (201 ≤ resp.StatusCode ∧ resp.StatusCode ≤ 999)) :
    (handleOAuthCallback cfg post http.NewRecorder r).w.status = some resp.StatusCode ∧
    (handleOAuthCallback cfg post http.NewRecorder r).w.body =
      (if resp.StatusCode = 101 ∨ resp.StatusCode = 204 ∨ resp.StatusCode = 304 then []
        else str "Token exchange failed: " ++ resp.Body ++ str "\n") ∧
    ((resp.StatusCode ≠ 101 ∧ resp.StatusCode ≠ 204 ∧ resp.StatusCode ≠ 304) →
      resp.Body <:+: (handleOAuthCallback cfg post http.NewRecorder r).w.body) ∧
    (handleOAuthCallback cfg post http.NewRecorder r).w.header.lookup (str "Location") = none ∧
    (handleOAuthCallback cfg post http.NewRecorder r).w.cookies = [] ∧
    (handleOAuthCallback cfg post http.NewRecorder r).w.panicked = false := by
  have h := outcome_rejected cfg post r resp hcode hpost hstatus
  have hb : (handleOAuthCallback cfg post http.NewRecorder r).w.body =
      (if resp.StatusCode = 101 ∨ resp.StatusCode = 204 ∨ resp.StatusCode = 304 then []
        else str "Token exchange failed: " ++ resp.Body ++ str "\n") := by
    rw [h.2.1]
    unfold http.bodyAllowedForStatus
    by_cases h1 : resp.StatusCode = 101
    · simp [h1]
    · by_cases h2 : resp.StatusCode = 204
      · simp [h2]
      · by_cases h3 : resp.StatusCode = 304
        · simp [h3]
        · have h4 : ¬ (100 ≤ resp.StatusCode ∧ resp.StatusCode ≤ 199) := by omega
          simp [h1, h2, h3, h4]
  refine ⟨h.1, hb, ?_, h.2.2.1, h.2.2.2.1, h.2.2.2.2⟩
  rintro ⟨h1, h2, h3⟩
  rw [hb, if_neg (by simp [h1, h2, h3])]
  exact ⟨str "Token exchange failed: ", str "\n", rfl⟩

/-- The witness of claim C3: status 400 with `invalid_grant`. -/
theorem callback_passes_rejection_on_witness :
    (handleOAuthCallback exampleConfig rejectingEndpoint http.NewRecorder
      callbackRequest).w.status = some 400 ∧
    (handleOAuthCallback exampleConfig rejectingEndpoint http.NewRecorder callbackRequest).w.body =
      str "Token exchange failed: \x7b\"error\":\"invalid_grant\"\x7d\n" ∧
    (handleOAuthCallback exampleConfig rejectingEndpoint http.NewRecorder
      callbackRequest).w.cookies = [] :=
  have h := callback_passes_rejection_on exampleConfig rejectingEndpoint callbackRequest
    ⟨400, str "\x7b\"error\":\"invalid_grant\"\x7d"⟩ (by decide) rfl (by decide)
  ⟨h.1, h.2.1.trans (by decide), h.2.2.2.2.1⟩

/-- Claim C4: with a non-empty code, a transport failure `e` of the token
exchange is answered with status 500 and a body that contains the text of
`e`; no cookie is set and no `Location` is sent. -/
theorem callback_reports_transport_failure (cfg : Config) (post : http.Transport)
    (r : http.Request) (e : Bytes)
    (hcode : r.Query.Get (str "code") ≠ [])
    (hpost : post (tokenExchangeCall cfg (r.Query.Get (str "code"))) = Except.error e) :
    (handleOAuthCallback cfg post http.NewRecorder r).w.status = some 500 ∧
    (handleOAuthCallback cfg post http.NewRecorder r).w.body =
      str "Token exchange failed: " ++ e ++ str "\n" ∧
    e <:+: (handleOAuthCallback cfg post http.NewRecorder r).w.body ∧
    (handleOAuthCallback cfg post http.NewRecorder r).w.cookies = [] ∧
    (handleOAuthCallback cfg post http.NewRecorder r).w.header.lookup (str "Location") = none :=
  outcome_transport_failure cfg post r e hcode hpost

/-- The witness of claim C4: the token endpoint refuses the connection. -/
theorem callback_reports_transport_failure_witness :
    (handleOAuthCallback exampleConfig unreachableEndpoint http.NewRecorder
      callbackRequest).w.status = some 500 ∧
    (handleOAuthCallback exampleConfig unreachableEndpoint http.NewRecorder
      callbackRequest).w.cookies = [] ∧
    (handleOAuthCallback exampleConfig unreachableEndpoint http.NewRecorder
      callbackRequest).w.header.lookup (str "Location") = none :=
  have h := callback_reports_transport_failure exampleConfig unreachableEndpoint callbackRequest
    (str "dial tcp 127.0.0.1:9100: connect: connection refused") (by decide) rfl
  ⟨h.1, h.2.2.2.1, h.2.2.2.2⟩

/-- Claim C5: with a non-empty code, a 200 answer whose body does not
decode, or decodes with an empty access token, sets no cookie and reports
no error: the response is the plain 303 redirect to `/`. -/
theorem callback_tolerates_malformed_token (cfg : Config) (post : http.Transport)
    (r : http.Request) (resp : http.Response)
    (hcode : r.Query.Get (str "code") ≠ [])
    (hpost : post (tokenExchangeCall cfg (r.Query.Get (str "code"))) = Except.ok resp)
    (hstatus : resp.StatusCode = 200)
    (hbody : (json.Unmarshal resp.Body json.tokenResponse.zero).2 ≠ none ∨
      (json.Unmarshal resp.Body json.tokenResponse.zero).1.AccessToken = []) :
    (handleOAuthCallback cfg post http.NewRecorder r).w.cookies = [] ∧
    (handleOAuthCallback cfg post http.NewRecorder r).w.status = some 303 ∧
    (handleOAuthCallback cfg post http.NewRecorder r).w.header.Get (str "Location") = str "/" ∧
    (handleOAuthCallback cfg post http.NewRecorder r).w =
      http.Redirect http.NewRecorder r (str "/") 303 :=
  outcome_no_session cfg post r resp hcode hpost hstatus hbody

/-- The witness of claim C5: status 200 with an HTML body. -/
theorem callback_tolerates_malformed_token_witness :
    (handleOAuthCallback exampleConfig garbledEndpoint http.NewRecorder
      callbackRequest).w.cookies = [] ∧
    (handleOAuthCallback exampleConfig garbledEndpoint http.NewRecorder
      callbackRequest).w.status = some 303 ∧
    (handleOAuthCallback exampleConfig garbledEndpoint http.NewRecorder
      callbackRequest).w.header.Get (str "Location") = str "/" :=
  have h := callback_tolerates_malformed_token exampleConfig garbledEndpoint callbackRequest
    ⟨200, str "<html>ok</html>"⟩ (by decide) rfl rfl (Or.inl (by decide))
  ⟨h.1, h.2.1, h.2.2.1⟩


/-- Claim C6, refuted as stated: the token `;` is not empty, so the cookie
is set, but `http.SetCookie` drops the `;` and the cookie that goes out
with the 303 has an empty value. -/
theorem callback_cookie_value_empty :
    callbackRequest.Query.Get (str "code") = str "abc" ∧
    json.Unmarshal (str "\x7b\"access_token\":\";\"\x7d") json.tokenResponse.zero =
      (⟨str ";", [], 0, [], []⟩, none) ∧
    (handleOAuthCallback exampleConfig separatorTokenEndpoint http.NewRecorder
      callbackRequest).w.cookies = [str "access_token=; Path=/; HttpOnly; SameSite=Lax"] ∧
    (handleOAuthCallback exampleConfig separatorTokenEndpoint http.NewRecorder
      callbackRequest).w.status = some 303 := by
  refine ⟨by decide, by rfl, by decide, by decide⟩

/-- Claim C6, amended: every run of the callback handler sets at most one
cookie, and sets one exactly when the code is non-empty, the exchange
answered 200 and the body decoded without error to a non-empty access
token; a cookie that is set is the session cookie, whose value is that
token as `net/http` sanitises it, and it comes with status 303, never with
an error status. The value written is not empty whenever the token holds a
byte allowed in a cookie value. At most one `http.Post` call is made. -/
theorem callback_cookie_iff_success (cfg : Config) (post : http.Transport) (r : http.Request) :
    (handleOAuthCallback cfg post http.NewRecorder r).w.cookies.length ≤ 1 ∧
    ((handleOAuthCallback cfg post http.NewRecorder r).w.cookies.length = 1 ↔
      (r.Query.Get (str "code") ≠ [] ∧
        ∃ resp, post (tokenExchangeCall cfg (r.Query.Get (str "code"))) = Except.ok resp ∧
          resp.StatusCode = 200 ∧
          (json.Unmarshal resp.Body json.tokenResponse.zero).2 = none ∧
          (json.Unmarshal resp.Body json.tokenResponse.zero).1.AccessToken ≠ [])) ∧
    (∀ line ∈ (handleOAuthCallback cfg post http.NewRecorder r).w.cookies,
      ∃ resp, post (tokenExchangeCall cfg (r.Query.Get (str "code"))) = Except.ok resp ∧
        (json.Unmarshal resp.Body json.tokenResponse.zero).1.AccessToken ≠ [] ∧
        line = str "access_token=" ++
          http.sanitizeCookieValue (json.Unmarshal resp.Body json.tokenResponse.zero).1.AccessToken ++
          str "; Path=/; HttpOnly" ++ (if r.TLS then str "; Secure" else []) ++
          str "; SameSite=Lax") ∧
    (∀ token : Bytes, (∃ b ∈ token, http.validCookieValueByte b = true) →
      http.sanitizeCookieValue token ≠ []) ∧
    ((handleOAuthCallback cfg post http.NewRecorder r).w.cookies ≠ [] →
      (handleOAuthCallback cfg post http.NewRecorder r).w.status = some 303) ∧
    (handleOAuthCallback cfg post http.NewRecorder r).posts.length ≤ 1 := by
  by_cases hcode : r.Query.Get (str "code") = []
  · have h := outcome_without_code cfg post r (Or.inr hcode)
    rw [handleOAuthCallback_no_code cfg post _ r hcode] at h ⊢
    rw [h.2.1]
    refine ⟨by simp, ?_, by simp, sanitizeCookieValue_ne_nil, by simp, by simp⟩
    constructor
    · intro h1; simp at h1
    · rintro ⟨h1, _⟩; exact absurd hcode h1
  · cases hpost : post (tokenExchangeCall cfg (r.Query.Get (str "code"))) with
    | error e =>
      have h := outcome_transport_failure cfg post r e hcode hpost
      rw [handleOAuthCallback_transport_error cfg post _ r e hcode hpost] at h ⊢
      rw [h.2.2.2.1]
      refine ⟨by simp, ?_, by simp, sanitizeCookieValue_ne_nil, by simp, by simp⟩
      constructor
      · intro h1; simp at h1
      · rintro ⟨_, resp, h1, _⟩; simp at h1
    | ok resp =>
      by_cases hstatus : resp.StatusCode = 200
      · by_cases hbody : (json.Unmarshal resp.Body json.tokenResponse.zero).2 = none ∧
            (json.Unmarshal resp.Body json.tokenResponse.zero).1.AccessToken ≠ []
        · have h := outcome_granted cfg post r resp
            (json.Unmarshal resp.Body json.tokenResponse.zero).1 hcode hpost hstatus
            (by rw [← hbody.1]) hbody.2
          rw [h.1]
          refine ⟨by simp, ?_, ?_, sanitizeCookieValue_ne_nil, fun _ => h.2.1, ?_⟩
          · constructor
            · intro _
              exact ⟨hcode, resp, rfl, hstatus, hbody.1, hbody.2⟩
            · intro _; simp
          · intro c hc
            rw [List.mem_singleton] at hc
            exact ⟨resp, rfl, hbody.2, hc⟩
          · rw [handleOAuthCallback_granted cfg post _ r resp hcode hpost hstatus hbody.1
              hbody.2]
            simp
        · have hb : (json.Unmarshal resp.Body json.tokenResponse.zero).2 ≠ none ∨
              (json.Unmarshal resp.Body json.tokenResponse.zero).1.AccessToken = [] := by
            by_cases h1 : (json.Unmarshal resp.Body json.tokenResponse.zero).2 = none
            · right
              by_contra h2
              exact hbody ⟨h1, h2⟩
            · exact Or.inl h1
          have h := outcome_no_session cfg post r resp hcode hpost hstatus hb
          rw [h.1]
          refine ⟨by simp, ?_, by simp, sanitizeCookieValue_ne_nil, by simp, ?_⟩
          · constructor
            · intro h1; simp at h1
            · rintro ⟨_, resp2, h1, _, h3, h4⟩
              have e : resp2 = resp := by
                have := h1
                simp at this
                exact this.symm
              subst e
              exact absurd ⟨h3, h4⟩ hbody
          · rw [handleOAuthCallback_no_session cfg post _ r resp hcode hpost hstatus hb]
            simp
      · have hc : (handleOAuthCallback cfg post http.NewRecorder r).w.cookies = [] := by
          rw [handleOAuthCallback_rejected cfg post _ r resp hcode hpost hstatus]
          exact Error_cookies _ _ _
        rw [hc]
        refine ⟨by simp, ?_, by simp, sanitizeCookieValue_ne_nil, by simp, ?_⟩
        · constructor
          · intro h1; simp at h1
          · rintro ⟨_, resp2, h1, h2, _⟩
            have e : resp2 = resp := by
              have := h1
              simp at this
              exact this.symm
            subst e
            exact absurd h2 hstatus
        · rw [handleOAuthCallback_rejected cfg post _ r resp hcode hpost hstatus]
          simp

set_option maxRecDepth 100000 in
/-- The witness of claim C6: the granting endpoint yields one cookie with
the 303, the rejecting endpoint none. -/
theorem callback_cookie_iff_success_witness :
    (handleOAuthCallback exampleConfig grantingEndpoint http.NewRecorder
      callbackRequest).w.cookies.length = 1 ∧
    (handleOAuthCallback exampleConfig grantingEndpoint http.NewRecorder
      callbackRequest).w.status = some 303 ∧
    http.sanitizeCookieValue (str "tok123") ≠ [] ∧
    (handleOAuthCallback exampleConfig rejectingEndpoint http.NewRecorder
      callbackRequest).w.cookies.length ≠ 1 :=
  have h := callback_cookie_iff_success exampleConfig grantingEndpoint callbackRequest
  have h2 := callback_cookie_iff_success exampleConfig rejectingEndpoint callbackRequest
  have h1 : (handleOAuthCallback exampleConfig grantingEndpoint http.NewRecorder
      callbackRequest).w.cookies.length = 1 :=
    h.2.1.2 ⟨by decide, ⟨200,
      str "\x7b\"access_token\":\"tok123\",\"token_type\":\"bearer\",\"expires_in\":3600\x7d"⟩,
      rfl, rfl, by rfl, by decide⟩
  ⟨h1, h.2.2.2.2.1 (fun e => by rw [e] at h1; exact absurd h1 (by decide)),
    h.2.2.2.1 (str "tok123") ⟨116, by decide, by decide⟩,
    fun e => by
      obtain ⟨_, resp, hp, hs, _⟩ := h2.2.1.1 e
      have e2 : resp = ⟨400, str "\x7b\"error\":\"invalid_grant\"\x7d"⟩ :=
        (Except.ok.inj hp).symm
      rw [e2] at hs
      exact absurd hs (by decide)⟩

/-! ## The token request and the authorization URLs -/

theorem tokenExchangeCall_body (cfg : Config) (code : Bytes) :
    (tokenExchangeCall cfg code).body = (tokenRequestData cfg code).Encode := rfl

theorem posts_of_code (cfg : Config) (post : http.Transport) (w : http.ResponseWriter)
    (r : http.Request) (hcode : r.Query.Get (str "code") ≠ []) :
    (handleOAuthCallback cfg post w r).posts =
      [tokenExchangeCall cfg (r.Query.Get (str "code"))] := by
  cases hpost : post (tokenExchangeCall cfg (r.Query.Get (str "code"))) with
  | error e => rw [handleOAuthCallback_transport_error cfg post w r e hcode hpost]
  | ok resp =>
    by_cases hstatus : resp.StatusCode = http.StatusOK
    · by_cases hbody : (json.Unmarshal resp.Body json.tokenResponse.zero).2 = none ∧
          (json.Unmarshal resp.Body json.tokenResponse.zero).1.AccessToken ≠ []
      · rw [handleOAuthCallback_granted cfg post w r resp hcode hpost hstatus hbody.1 hbody.2]
      · have hb : (json.Unmarshal resp.Body json.tokenResponse.zero).2 ≠ none ∨
            (json.Unmarshal resp.Body json.tokenResponse.zero).1.AccessToken = [] := by
          by_cases h1 : (json.Unmarshal resp.Body json.tokenResponse.zero).2 = none
          · right
            by_contra h2
            exact hbody ⟨h1, h2⟩
          · exact Or.inl h1
        rw [handleOAuthCallback_no_session cfg post w r resp hcode hpost hstatus hb]
    · rw [handleOAuthCallback_rejected cfg post w r resp hcode hpost hstatus]

theorem authorize_query_no_hash (cfg : Config) (scope : Bytes) :
    (35 : Byte) ∉ (authorizeValues cfg scope).Encode := by
  rw [authorizeValues_Encode]
  intro h
  rcases url.encodePairs_escaped _ _ h with h1 | h1 | h1
  · exact (url.escaped_facts _ h1).2.2.2.1 rfl
  · exact absurd h1 (by decide)
  · exact absurd h1 (by decide)

theorem RawQuery_authURL (cfg : Config) (scope : Bytes) :
    url.RawQuery (authorizeEndpoint ++ (authorizeValues cfg scope).Encode) =
      (authorizeValues cfg scope).Encode :=
  RawQuery_authorize _ (authorize_query_no_hash cfg scope)

theorem authorize_query_parsed (cfg : Config) (scope : Bytes) :
    url.ParseQuery (url.RawQuery (authorizeEndpoint ++ (authorizeValues cfg scope).Encode)) =
      ([(str "client_id", [cfg.clientID]), (str "redirect_uri", [cfg.redirectURL]),
        (str "response_type", [str "code"]), (str "scope", [scope])], false) := by
  rw [RawQuery_authURL, ParseQuery_authorizeValues]

/-- Claim C7: with a non-empty code `C` the handler makes one `http.Post`
call, to the configured token endpoint, with content type
`application/x-www-form-urlencoded` and a body that decodes to exactly the
five fields `client_id`, `client_secret`, `code = C`,
`grant_type = authorization_code` and `redirect_uri`; this `redirect_uri`
is the one carried by both authorization URLs of `handleIndex`. -/
theorem callback_token_request (cfg : Config) (post : http.Transport) (r : http.Request)
    (hcode : r.Query.Get (str "code") ≠ []) :
    (handleOAuthCallback cfg post http.NewRecorder r).posts =
      [tokenExchangeCall cfg (r.Query.Get (str "code"))] ∧
    (tokenExchangeCall cfg (r.Query.Get (str "code"))).url = cfg.authTokenURL ∧
    (tokenExchangeCall cfg (r.Query.Get (str "code"))).contentType =
      str "application/x-www-form-urlencoded" ∧
    url.ParseQuery (tokenExchangeCall cfg (r.Query.Get (str "code"))).body =
      ([(str "client_id", [cfg.clientID]), (str "client_secret", [cfg.clientSecret]),
        (str "code", [r.Query.Get (str "code")]),
        (str "grant_type", [str "authorization_code"]),
        (str "redirect_uri", [cfg.redirectURL])], false) ∧
    (url.ParseQuery (tokenExchangeCall cfg (r.Query.Get (str "code"))).body).1.Get
        (str "redirect_uri") =
      (url.ParseQuery (url.RawQuery (authURL cfg))).1.Get (str "redirect_uri") ∧
    (url.ParseQuery (tokenExchangeCall cfg (r.Query.Get (str "code"))).body).1.Get
        (str "redirect_uri") =
      (url.ParseQuery (url.RawQuery (authURLWithoutScope cfg))).1.Get (str "redirect_uri") := by
  have hb : url.ParseQuery (tokenExchangeCall cfg (r.Query.Get (str "code"))).body =
      ([(str "client_id", [cfg.clientID]), (str "client_secret", [cfg.clientSecret]),
        (str "code", [r.Query.Get (str "code")]),
        (str "grant_type", [str "authorization_code"]),
        (str "redirect_uri", [cfg.redirectURL])], false) := by
    rw [tokenExchangeCall_body, ParseQuery_tokenRequestData]
  refine ⟨posts_of_code cfg post _ r hcode, rfl, rfl, hb, ?_, ?_⟩
  · rw [hb]
    unfold authURL
    rw [authorize_query_parsed]
    rfl
  · rw [hb]
    unfold authURLWithoutScope
    rw [authorize_query_parsed]
    rfl

/-- The witness of claim C7, for the callback `code=abc`. -/
theorem callback_token_request_witness :
    callbackRequest.Query.Get (str "code") ≠ [] ∧
    (handleOAuthCallback exampleConfig grantingEndpoint http.NewRecorder callbackRequest).posts =
      [{ url := str "http://127.0.0.1:9100/application/o/token/"
         contentType := str "application/x-www-form-urlencoded"
         body := str ("client_id=demo-client&client_secret=s3cret%2F%2B&code=abc" ++
           "&grant_type=authorization_code" ++
           "&redirect_uri=http%3A%2F%2F127.0.0.1%3A1234%2Foauth%2Fredirect") }] :=
  ⟨by decide,
    (callback_token_request exampleConfig grantingEndpoint callbackRequest (by decide)).1.trans
      (by decide)⟩

theorem authorize_query_escaped (cfg : Config) (scope : Bytes) :
    url.RawQuery (authorizeEndpoint ++ (authorizeValues cfg scope).Encode) =
      url.encodePairs [(str "client_id", cfg.clientID), (str "redirect_uri", cfg.redirectURL),
        (str "response_type", str "code"), (str "scope", scope)] ∧
    ∀ c ∈ url.RawQuery (authorizeEndpoint ++ (authorizeValues cfg scope).Encode),
      url.escaped c = true ∨ c = 61 ∨ c = 38 := by
  rw [RawQuery_authURL, authorizeValues_Encode]
  exact ⟨rfl, url.encodePairs_escaped _⟩

theorem scope_of_parsed (a b c scope : Bytes) (e : Bool) :
    url.Values.Get ([(str "client_id", [a]), (str "redirect_uri", [b]),
      (str "response_type", [c]), (str "scope", [scope])], e).1 (str "scope") = scope := rfl

/-- Claim C8: for every configured client id and redirect URL, the query
of each of the two authorization URLs of `handleIndex` decodes without
error to exactly the four parameters `client_id`, `redirect_uri`,
`response_type` and `scope`, one value each, with `response_type = code`,
the client id and the redirect URL unchanged, and a scope that splits on
spaces into exactly the scope tokens of that variant. Every key and value
is written query-escaped: apart from the separators `=` and `&` the query
holds only unreserved bytes, `%XX` escapes and `+` for a space. The same
round trip holds for the URL built from any scope string. -/
theorem authorization_url_round_trip (cfg : Config) :
    (url.ParseQuery (url.RawQuery (authURL cfg)) =
        ([(str "client_id", [cfg.clientID]), (str "redirect_uri", [cfg.redirectURL]),
          (str "response_type", [str "code"]),
          (str "scope", [str "openid profile email vriend_stresslevel"])], false) ∧
      split 32 ((url.ParseQuery (url.RawQuery (authURL cfg))).1.Get (str "scope")) =
        [str "openid", str "profile", str "email", str "vriend_stresslevel"] ∧
      url.RawQuery (authURL cfg) =
        url.encodePairs [(str "client_id", cfg.clientID), (str "redirect_uri", cfg.redirectURL),
          (str "response_type", str "code"),
          (str "scope", str "openid profile email vriend_stresslevel")] ∧
      ∀ c ∈ url.RawQuery (authURL cfg), url.escaped c = true ∨ c = 61 ∨ c = 38) ∧
    (url.ParseQuery (url.RawQuery (authURLWithoutScope cfg)) =
        ([(str "client_id", [cfg.clientID]), (str "redirect_uri", [cfg.redirectURL]),
          (str "response_type", [str "code"]),
          (str "scope", [str "openid profile email"])], false) ∧
      split 32 ((url.ParseQuery (url.RawQuery (authURLWithoutScope cfg))).1.Get (str "scope")) =
        [str "openid", str "profile", str "email"] ∧
      url.RawQuery (authURLWithoutScope cfg) =
        url.encodePairs [(str "client_id", cfg.clientID), (str "redirect_uri", cfg.redirectURL),
          (str "response_type", str "code"), (str "scope", str "openid profile email")] ∧
      ∀ c ∈ url.RawQuery (authURLWithoutScope cfg), url.escaped c = true ∨ c = 61 ∨ c = 38) ∧
    ∀ scope : Bytes,
      url.ParseQuery (url.RawQuery (authorizeEndpoint ++ (authorizeValues cfg scope).Encode)) =
        ([(str "client_id", [cfg.clientID]), (str "redirect_uri", [cfg.redirectURL]),
          (str "response_type", [str "code"]), (str "scope", [scope])], false) := by
  refine ⟨⟨?_, ?_, ?_, ?_⟩, ⟨?_, ?_, ?_, ?_⟩, fun scope => authorize_query_parsed cfg scope⟩
  · exact authorize_query_parsed cfg _
  · unfold authURL
    rw [authorize_query_parsed, scope_of_parsed]
    decide
  · exact (authorize_query_escaped cfg _).1
  · exact (authorize_query_escaped cfg _).2
  · exact authorize_query_parsed cfg _
  · unfold authURLWithoutScope
    rw [authorize_query_parsed, scope_of_parsed]
    decide
  · exact (authorize_query_escaped cfg _).1
  · exact (authorize_query_escaped cfg _).2

/-! ## Logout -/

theorem formatHTTP_of_Unix (a b : Time) (h : time.Unix a = time.Unix b) :
    time.formatHTTP a = time.formatHTTP b := by
  unfold time.formatHTTP
  rw [h]

theorem Unix_floor (t : Time) :
    time.Unix (time.Unix t * 1000000000) = time.Unix t ∧ time.Unix t * 1000000000 ≤ t := by
  unfold time.Unix
  constructor
  · exact Int.mul_ediv_cancel _ (by decide)
  · exact Int.ediv_mul_le t (by decide)

theorem logout_expires_valid (now : Nat) :
    http.validCookieExpires (Time.Add (now : Int) (- time.Second)) = true := by
  simp only [http.validCookieExpires, time.Year, time.civil, time.Unix, Time.Add, time.Second,
    decide_eq_true_eq]
  split <;> omega

theorem handleLogout_eq (now : Nat) (r : http.Request) :
    handleLogout now http.NewRecorder r =
      { header := [(str "Location", [str "/"])]
        cookies := [str "access_token=; Expires=" ++ time.formatHTTP ((now : Int) - 1000000000)]
        status := some 303
        body := [] } := by
  have hline : http.Cookie.String
      { Name := cookieName, Value := [], Expires := some (Time.Add (now : Int) (- time.Second)) } =
      str "access_token=; Expires=" ++ time.formatHTTP ((now : Int) - 1000000000) :=
    http.logoutCookie_String _ (logout_expires_valid now)
  unfold handleLogout
  rw [SetCookie_line _ _ _ hline (by simp [str])]
  rfl

/-- Claim C9: whatever the request holds, `handleLogout` sets exactly one
cookie, named `access_token` like the session cookie, with an empty value
and an `Expires` that is the instant one second before the time of
handling, written in whole seconds, hence strictly earlier than the time
of handling, and answers with status 303 and `Location: /`; the status is
never an error status and the body is empty. -/
theorem logout_clears_cookie (now : Nat) (r : http.Request) :
    (handleLogout now http.NewRecorder r).cookies =
      [cookieName ++ str "=; Expires=" ++ time.formatHTTP ((now : Int) - 1000000000)] ∧
    cookieName = str "access_token" ∧
    time.formatHTTP ((now : Int) - 1000000000) =
      time.formatHTTP (time.Unix ((now : Int) - 1000000000) * 1000000000) ∧
    time.Unix ((now : Int) - 1000000000) * 1000000000 ≤ (now : Int) - 1000000000 ∧
    (now : Int) - 1000000000 < now ∧
    (handleLogout now http.NewRecorder r).status = some 303 ∧
    (handleLogout now http.NewRecorder r).header.Get (str "Location") = str "/" ∧
    (handleLogout now http.NewRecorder r).body = [] ∧
    (handleLogout now http.NewRecorder r).panicked = false := by
  rw [handleLogout_eq]
  refine ⟨?_, rfl, ?_, (Unix_floor _).2, Int.sub_lt_self _ (by decide), rfl, rfl, rfl, rfl⟩
  · simp [cookieName, str]
  · exact formatHTTP_of_Unix _ _ (Unix_floor _).1.symm

/-- Claim C10, refuted as stated: two logouts handled a minute apart send
different responses, because the `Expires` of the cookie follows the clock. -/
theorem logout_twice_differs :
    handleLogout 1700000000000000000 http.NewRecorder callbackRequest ≠
      handleLogout 1700000060000000000 http.NewRecorder callbackRequest ∧
    (handleLogout 1700000000000000000 http.NewRecorder callbackRequest).cookies =
      [str "access_token=; Expires=Tue, 14 Nov 2023 22:13:19 GMT"] ∧
    (handleLogout 1700000060000000000 http.NewRecorder callbackRequest).cookies =
      [str "access_token=; Expires=Tue, 14 Nov 2023 22:14:19 GMT"] := by
  refine ⟨?_, by decide, by decide⟩
  intro h
  have h1 := congrArg http.ResponseWriter.cookies h
  revert h1
  decide

/-- Claim C10, amended: any two logouts, whatever their requests and
times, send the same status, the same headers (`Location: /`), the same
empty body and one cookie with the same name, the same empty value and no
attribute other than `Expires`; the `Expires` of each is its own handling
time less one second, written in whole seconds, so the two responses are
equal whenever these two instants lie in the same second. -/
theorem logout_twice_same_but_expires (now1 now2 : Nat) (r1 r2 : http.Request) :
    (handleLogout now1 http.NewRecorder r1).status =
      (handleLogout now2 http.NewRecorder r2).status ∧
    (handleLogout now1 http.NewRecorder r1).header =
      (handleLogout now2 http.NewRecorder r2).header ∧
    (handleLogout now1 http.NewRecorder r1).body =
      (handleLogout now2 http.NewRecorder r2).body ∧
    (handleLogout now1 http.NewRecorder r1).cookies =
      [str "access_token=; Expires=" ++
        time.formatHTTP (time.Unix ((now1 : Int) - 1000000000) * 1000000000)] ∧
    (handleLogout now2 http.NewRecorder r2).cookies =
      [str "access_token=; Expires=" ++
        time.formatHTTP (time.Unix ((now2 : Int) - 1000000000) * 1000000000)] ∧
    (time.Unix ((now1 : Int) - 1000000000) = time.Unix ((now2 : Int) - 1000000000) →
      handleLogout now1 http.NewRecorder r1 = handleLogout now2 http.NewRecorder r2) := by
  rw [handleLogout_eq, handleLogout_eq]
  refine ⟨rfl, rfl, rfl, ?_, ?_, ?_⟩
  · simp only []
    rw [formatHTTP_of_Unix _ _ (Unix_floor _).1]
  · simp only []
    rw [formatHTTP_of_Unix _ _ (Unix_floor _).1]
  · intro h
    rw [formatHTTP_of_Unix _ _ h]

/-- The witness of claim C10: two logouts 0.4 seconds apart within one
second of the clock send equal responses. -/
theorem logout_twice_same_but_expires_witness :
    handleLogout 1700000000000000000 http.NewRecorder callbackRequest =
      handleLogout 1700000000400000000 http.NewRecorder callbackWithoutCode :=
  (logout_twice_same_but_expires 1700000000000000000 1700000000400000000 callbackRequest
    callbackWithoutCode).2.2.2.2.2 (by decide)

end Vriend
